import Mathlib

/-!
Shallow embedding of the moderation case ledger, warning store and
escalation engine of the `autumn` bot (crates `autumn-database` and
`autumn-commands`), together with theorems settling the specification
claims about them.

The persistent store is modelled as an explicit state (`DbState`) holding
the rows of the relevant tables; each database operation becomes a pure
function on that state.  Machine integers are modelled as `Nat` (for Rust
`u64`/`usize` inputs) and `Int` (for SQL `BIGINT`/Rust `i64` values), with
the `i64::try_from` guards and `as` casts made explicit.  Fallible Rust
functions (`anyhow::Result`) become `Except String`; operations that run a
transaction additionally return the post state, so that rollback behaviour
is expressible.
-/

set_option maxHeartbeats 1000000

namespace Autumn

/-! ## Machine integer helpers -/

/-- `i64::MAX` as an integer. -/
def i64Max : Int := 9223372036854775807

/-- `i64::MAX` as a natural number (for bounds on `u64` inputs). -/
def i64MaxNat : Nat := 9223372036854775807

/-- Rust `i64::try_from(v)` for a `u64` value `v`: succeeds exactly when the
value fits in an `i64`, otherwise produces the given context message. -/
def u64ToI64 (n : Nat) (msg : String) : Except String Int :=
  if n ≤ i64MaxNat then Except.ok (n : Int) else Except.error msg

/-- `Option<u64>` to `Option<i64>` via `map(i64::try_from).transpose()`. -/
def optU64ToI64 (n : Option Nat) (msg : String) : Except String (Option Int) :=
  match n with
  | none => Except.ok none
  | some v => (u64ToI64 v msg).map Option.some

/-- Rust `u64::try_from(v)` for an `i64` value `v`: succeeds exactly when
the value is non-negative. -/
def i64ToU64 (i : Int) (msg : String) : Except String Nat :=
  if 0 ≤ i then Except.ok i.toNat else Except.error msg

/-- `Option<i64>` to `Option<u64>` via `map(u64::try_from).transpose()`. -/
def optI64ToU64 (i : Option Int) (msg : String) : Except String (Option Nat) :=
  match i with
  | none => Except.ok none
  | some v => (i64ToU64 v msg).map Option.some

/-- Rust `v as i64` for a `u64` value `v` (two's-complement wrap). -/
def asI64 (n : Nat) : Int :=
  ((n : Int) % 18446744073709551616 + 9223372036854775808) % 18446744073709551616
    - 9223372036854775808

/-- Rust `v as u64` for an `i64` value `v` (two's-complement wrap). -/
def asU64 (i : Int) : Nat :=
  (i % 18446744073709551616).toNat

/-! ## Data model

Row types for the tables `mod_cases`, `mod_case_events`, `warnings` and
`escalation_config` (spec section 6, "persisted schema essentials"), as
read and written by `autumn-database/src/impls/{cases,warnings,escalation}.rs`.
The separate `moderation_cases` list models the table of that name queried
by `count_timeouts_in_window` in `impls/escalation.rs`, which is distinct
from `mod_cases` (no code in the repository ever writes to it). -/

structure CaseRow where
  id : Int
  guild_id : Int
  case_number : Int
  case_code : String
  action_case_number : Int
  target_user_id : Option Int
  moderator_user_id : Int
  action : String
  reason : String
  status : String
  duration_seconds : Option Int
  created_at : Int
  updated_at : Int
deriving Repr, DecidableEq

structure CaseEventRow where
  id : Int
  case_id : Int
  guild_id : Int
  event_type : String
  actor_user_id : Int
  old_reason : Option String
  new_reason : Option String
  note : Option String
  created_at : Int
deriving Repr, DecidableEq

structure WarningRow where
  id : Int
  guild_id : Int
  user_id : Int
  moderator_id : Int
  reason : String
  warned_at : Int
deriving Repr, DecidableEq

/-- `model/escalation.rs`: per-guild escalation policy row
(`warn_threshold` is an `i32` in the source, modelled as `Int`). -/
structure EscalationConfig where
  guild_id : Int
  enabled : Bool
  warn_threshold : Int
  warn_window_seconds : Int
  timeout_window_seconds : Int
deriving Repr, DecidableEq

/-- The database state: the rows of each table, plus fresh-id counters for
the surrogate `id` primary key columns. -/
structure DbState where
  mod_cases : List CaseRow
  mod_case_events : List CaseEventRow
  warnings : List WarningRow
  moderation_cases : List CaseRow
  escalation_config : List EscalationConfig
  next_case_id : Int
  next_event_id : Int
  next_warning_id : Int
deriving Repr, DecidableEq

def emptyDb : DbState :=
  { mod_cases := []
    mod_case_events := []
    warnings := []
    moderation_cases := []
    escalation_config := []
    next_case_id := 1
    next_event_id := 1
    next_warning_id := 1 }

/-! ## `action_code` (impls/cases.rs) -/

/-- `impls/cases.rs::action_code`: the fixed action-to-code lookup used by
`create_case`.  Note that only the four concrete word-filter action strings
map to `"WF"`; every other string falls through to `"M"`. -/
def action_code (action : String) : String :=
  if action = "warn" then "W"
  else if action = "ban" then "B"
  else if action = "kick" then "K"
  else if action = "timeout" then "T"
  else if action = "unban" then "UB"
  else if action = "untimeout" then "UT"
  else if action = "unwarn" then "UW"
  else if action = "unwarn_all" then "UWA"
  else if action = "purge" then "P"
  else if action = "terminate" then "TR"
  else if action = "word_filter_timeout" ∨ action = "word_filter_delete"
       ∨ action = "word_filter_log" ∨ action = "word_filter_warn" then "WF"
  else if action = "auto_timeout" then "AT"
  else "M"

/-! ## Escalation tier table (impls/escalation.rs) -/

/-- `impls/escalation.rs::escalation_timeout_seconds`: maps the number of
prior timeouts in the window to the next timeout duration in seconds. -/
def escalation_timeout_seconds (previous_timeout_count : Int) : Int :=
  if previous_timeout_count = 0 then 300
  else if previous_timeout_count = 1 then 1800
  else if previous_timeout_count = 2 then 7200
  else if previous_timeout_count = 3 then 86400
  else 604800

/-! ## `format_compact_duration` (autumn-utils/src/formatting.rs)

Used by `check_and_escalate` to build the generated case reason. -/

def format_compact_duration (total_seconds : Nat) : String :=
  let days := total_seconds / 86400
  let hours := (total_seconds % 86400) / 3600
  let minutes := (total_seconds % 3600) / 60
  let seconds := total_seconds % 60
  if days > 0 then
    if hours > 0 then toString days ++ "d " ++ toString hours ++ "h"
    else toString days ++ "d"
  else if hours > 0 then
    String.intercalate " "
      ([toString hours ++ "h"]
        ++ (if minutes > 0 then [toString minutes ++ "m"] else [])
        ++ (if seconds > 0 then [toString seconds ++ "s"] else []))
  else if minutes > 0 then
    if seconds > 0 then toString minutes ++ "m " ++ toString seconds ++ "s"
    else toString minutes ++ "m"
  else toString seconds ++ "s"

/-! ## SQL aggregate helpers -/

/-- `COALESCE(MAX(x), 0)`: the maximum of a column, or `0` when the row set
is empty. -/
def sqlMaxD0 (l : List Int) : Int := (l.maximum).unbot' 0

/-- Strict lexicographic order on `(time, id)` row keys, as used by
`ORDER BY created_at ASC, id ASC` / `ORDER BY warned_at ASC, id ASC`. -/
def keyLt (a b : Int × Int) : Bool :=
  a.1 < b.1 || (a.1 == b.1 && a.2 < b.2)

/-- `ROW_NUMBER() OVER (ORDER BY key ASC)` for a row with key `k` in a row
set with keys `ks`, assuming the keys are pairwise distinct: one plus the
number of strictly smaller keys in the set. -/
def rankOf (ks : List (Int × Int)) (k : Int × Int) : Nat :=
  1 + (ks.filter (fun j => keyLt j k)).length

/-! ## Case ledger operations (impls/cases.rs) -/

/-- `impls/cases.rs::NewCase` (all id/quantity fields are Rust `u64`). -/
structure NewCase where
  guild_id : Nat
  target_user_id : Option Nat
  moderator_user_id : Nat
  action : String
  reason : String
  status : String
  duration_seconds : Option Nat
deriving Repr, DecidableEq

/-- `model/cases.rs::CaseSummary` (fields are `u64` on the Rust side). -/
structure CaseSummary where
  case_number : Nat
  case_code : String
  action_case_number : Nat
  target_user_id : Option Nat
  moderator_user_id : Nat
  action : String
  reason : String
  duration_seconds : Option Nat
  created_at : Nat
deriving Repr, DecidableEq

/-- `model/cases.rs::ModerationCase` (fields are `u64` on the Rust side). -/
structure ModerationCase where
  id : Nat
  case_number : Nat
  case_code : String
  action_case_number : Nat
  guild_id : Nat
  target_user_id : Option Nat
  moderator_user_id : Nat
  action : String
  reason : String
  status : String
  duration_seconds : Option Nat
  created_at : Nat
  updated_at : Nat
deriving Repr, DecidableEq

/-- `impls/cases.rs::to_case_summary`: the `u64::try_from` conversions of a
fetched row, in source order. -/
def to_case_summary (row : CaseRow) : Except String CaseSummary := do
  let case_number ← i64ToU64 row.case_number "case_number out of u64 range"
  let action_case_number ←
    i64ToU64 row.action_case_number "action_case_number row out of u64 range"
  let target_user_id ← optI64ToU64 row.target_user_id "target_user_id row out of u64 range"
  let moderator_user_id ←
    i64ToU64 row.moderator_user_id "moderator_user_id row out of u64 range"
  let duration_seconds ←
    optI64ToU64 row.duration_seconds "duration_seconds row out of u64 range"
  let created_at ← i64ToU64 row.created_at "created_at row out of u64 range"
  Except.ok
    { case_number, case_code := row.case_code, action_case_number, target_user_id,
      moderator_user_id, action := row.action, reason := row.reason, duration_seconds,
      created_at }

/-- `impls/cases.rs::to_moderation_case`. -/
def to_moderation_case (row : CaseRow) : Except String ModerationCase := do
  let id ← i64ToU64 row.id "id row out of u64 range"
  let case_number ← i64ToU64 row.case_number "case_number row out of u64 range"
  let action_case_number ←
    i64ToU64 row.action_case_number "action_case_number row out of u64 range"
  let guild_id ← i64ToU64 row.guild_id "guild_id row out of u64 range"
  let target_user_id ← optI64ToU64 row.target_user_id "target_user_id row out of u64 range"
  let moderator_user_id ←
    i64ToU64 row.moderator_user_id "moderator_user_id row out of u64 range"
  let duration_seconds ←
    optI64ToU64 row.duration_seconds "duration_seconds row out of u64 range"
  let created_at ← i64ToU64 row.created_at "created_at row out of u64 range"
  let updated_at ← i64ToU64 row.updated_at "updated_at row out of u64 range"
  Except.ok
    { id, case_number, case_code := row.case_code, action_case_number, guild_id,
      target_user_id, moderator_user_id, action := row.action, reason := row.reason,
      status := row.status, duration_seconds, created_at, updated_at }

/-- `SELECT COALESCE(MAX(case_number), 0) FROM mod_cases WHERE guild_id = g`. -/
def maxCaseNumber (db : DbState) (g : Int) : Int :=
  sqlMaxD0 ((db.mod_cases.filter (fun r => r.guild_id == g)).map (fun r => r.case_number))

/-- `SELECT COALESCE(MAX(action_case_number), 0) FROM mod_cases WHERE
guild_id = g AND case_code = code`. -/
def maxActionCaseNumber (db : DbState) (g : Int) (code : String) : Int :=
  sqlMaxD0 ((db.mod_cases.filter
    (fun r => r.guild_id == g && r.case_code == code)).map (fun r => r.action_case_number))

/-- The `i64::try_from` conversions at the top of `create_case`, in source
order (guild, target, moderator, duration, now). -/
def caseInputs (nc : NewCase) (clock : Nat) :
    Except String (Int × Option Int × Int × Option Int × Int) := do
  let g ← u64ToI64 nc.guild_id "guild_id out of i64 range"
  let t ← optU64ToI64 nc.target_user_id "target_user_id out of i64 range"
  let m ← u64ToI64 nc.moderator_user_id "moderator_user_id out of i64 range"
  let d ← optU64ToI64 nc.duration_seconds "duration_seconds out of i64 range"
  let now ← u64ToI64 clock "now out of i64 range"
  Except.ok (g, t, m, d, now)

/-- `impls/cases.rs::create_case`.  The Rust function runs inside one
transaction guarded by `pg_advisory_xact_lock(guild_id)`, which serialises
concurrent case creation per guild; the model therefore treats the whole
transaction as one atomic step on the state.  Every error path before
`tx.commit()` rolls the transaction back, which the model renders by
returning the unchanged state together with the error; the
`to_case_summary` conversion happens after the commit, so its (only
theoretical) failure leaves the inserted rows in place. -/
def create_case (db : DbState) (nc : NewCase) (clock : Nat) :
    DbState × Except String CaseSummary :=
  match caseInputs nc clock with
  | Except.error e => (db, Except.error e)
  | Except.ok (g, t, m, d, now) =>
    let case_code := action_code nc.action
    let next_case_number := maxCaseNumber db g + 1
    let next_action_case_number := maxActionCaseNumber db g case_code + 1
    let row : CaseRow :=
      { id := db.next_case_id, guild_id := g, case_number := next_case_number,
        case_code := case_code, action_case_number := next_action_case_number,
        target_user_id := t, moderator_user_id := m, action := nc.action,
        reason := nc.reason, status := nc.status, duration_seconds := d,
        created_at := now, updated_at := now }
    let ev : CaseEventRow :=
      { id := db.next_event_id, case_id := row.id, guild_id := g,
        event_type := "created", actor_user_id := m, old_reason := none,
        new_reason := none, note := some "Case created", created_at := now }
    let db' := { db with
      mod_cases := db.mod_cases ++ [row],
      mod_case_events := db.mod_case_events ++ [ev],
      next_case_id := db.next_case_id + 1,
      next_event_id := db.next_event_id + 1 }
    (db', to_case_summary row)

/-- `impls/cases.rs::get_case_by_label`: exact lookup on the unique triple
`(guild_id, case_code, action_case_number)`. -/
def get_case_by_label (db : DbState) (guild : Nat) (case_code : String)
    (action_case_number : Nat) : Except String (Option ModerationCase) := do
  let g ← u64ToI64 guild "guild_id out of i64 range"
  let n ← u64ToI64 action_case_number "action_case_number out of i64 range"
  match db.mod_cases.find?
      (fun r => r.guild_id == g && r.case_code == case_code && r.action_case_number == n) with
  | none => Except.ok none
  | some row => (to_moderation_case row).map Option.some

/-- Events of one case, `ORDER BY created_at ASC, id ASC`
(`impls/cases.rs::get_case_events`, keys assumed distinct since `id` is a
primary key; `mergeSort` is stable so equal keys keep table order). -/
def get_case_events (db : DbState) (guild : Nat) (case_code : String)
    (action_case_number : Nat) : Except String (List CaseEventRow) := do
  let g ← u64ToI64 guild "guild_id out of i64 range"
  let n ← u64ToI64 action_case_number "action_case_number out of i64 range"
  match db.mod_cases.find?
      (fun r => r.guild_id == g && r.case_code == case_code && r.action_case_number == n) with
  | none => Except.ok []
  | some c =>
    Except.ok ((db.mod_case_events.filter
        (fun e => e.guild_id == g && e.case_id == c.id)).mergeSort
      (fun a b => !(keyLt (b.created_at, b.id) (a.created_at, a.id))))

/-- `impls/cases.rs::update_case_reason`: row-lock the case, capture the old
reason, update reason and `updated_at`, and append a `reason_updated` event,
all in one transaction.  Returns `none` (not an error) when the case does
not exist. -/
def update_case_reason (db : DbState) (guild : Nat) (case_code : String)
    (action_case_number : Nat) (actor : Nat) (new_reason : String) (clock : Nat) :
    DbState × Except String (Option ModerationCase) :=
  match (do
      let g ← u64ToI64 guild "guild_id out of i64 range"
      let n ← u64ToI64 action_case_number "action_case_number out of i64 range"
      let a ← u64ToI64 actor "actor_user_id out of i64 range"
      let now ← u64ToI64 clock "now out of i64 range"
      Except.ok (g, n, a, now) : Except String (Int × Int × Int × Int)) with
  | Except.error e => (db, Except.error e)
  | Except.ok (g, n, a, now) =>
    match db.mod_cases.find?
        (fun r => r.guild_id == g && r.case_code == case_code && r.action_case_number == n) with
    | none => (db, Except.ok none)
    | some c =>
      let upd := fun r : CaseRow =>
        if r.id == c.id then { r with reason := new_reason, updated_at := now } else r
      let ev : CaseEventRow :=
        { id := db.next_event_id, case_id := c.id, guild_id := g,
          event_type := "reason_updated", actor_user_id := a,
          old_reason := some c.reason, new_reason := some new_reason,
          note := some "Reason edited", created_at := now }
      let db' := { db with
        mod_cases := db.mod_cases.map upd,
        mod_case_events := db.mod_case_events ++ [ev],
        next_event_id := db.next_event_id + 1 }
      (db', (to_moderation_case { c with reason := new_reason, updated_at := now }).map
        Option.some)

/-- `impls/cases.rs::add_case_note`: locate the case (`false` when absent),
append a `note_added` event and bump `updated_at`, in one transaction. -/
def add_case_note (db : DbState) (guild : Nat) (case_code : String)
    (action_case_number : Nat) (actor : Nat) (note : String) (clock : Nat) :
    DbState × Except String Bool :=
  match (do
      let g ← u64ToI64 guild "guild_id out of i64 range"
      let n ← u64ToI64 action_case_number "action_case_number out of i64 range"
      let a ← u64ToI64 actor "actor_user_id out of i64 range"
      let now ← u64ToI64 clock "now out of i64 range"
      Except.ok (g, n, a, now) : Except String (Int × Int × Int × Int)) with
  | Except.error e => (db, Except.error e)
  | Except.ok (g, n, a, now) =>
    match db.mod_cases.find?
        (fun r => r.guild_id == g && r.case_code == case_code && r.action_case_number == n) with
    | none => (db, Except.ok false)
    | some c =>
      let ev : CaseEventRow :=
        { id := db.next_event_id, case_id := c.id, guild_id := g,
          event_type := "note_added", actor_user_id := a, old_reason := none,
          new_reason := none, note := some note, created_at := now }
      let db' := { db with
        mod_cases := db.mod_cases.map
          (fun r => if r.id == c.id then { r with updated_at := now } else r),
        mod_case_events := db.mod_case_events ++ [ev],
        next_event_id := db.next_event_id + 1 }
      (db', Except.ok true)

/-- `impls/cases.rs::CaseFilters`. -/
structure CaseFilters where
  target_user_id : Option Nat
  moderator_user_id : Option Nat
  action : Option String
  limit : Nat
deriving Repr, DecidableEq

/-- `impls/cases.rs::list_recent_cases`: filtered read, `ORDER BY
case_number DESC`, `LIMIT` clamped to 1..=200. -/
def list_recent_cases (db : DbState) (guild : Nat) (filters : CaseFilters) :
    Except String (List CaseSummary) := do
  let g ← u64ToI64 guild "guild_id out of i64 range"
  let t ← optU64ToI64 filters.target_user_id "target_user_id out of i64 range"
  let m ← optU64ToI64 filters.moderator_user_id "moderator_user_id out of i64 range"
  let limit := min (max filters.limit 1) 200
  let rows := (db.mod_cases.filter (fun r =>
      r.guild_id == g
      && (t.isNone || r.target_user_id == t)
      && (m.isNone || decide (r.moderator_user_id ∈ m.toList))
      && (filters.action.isNone
          || decide (r.action.toLower ∈ (filters.action.map String.toLower).toList)))).mergeSort
    (fun a b => b.case_number ≤ a.case_number)
  (rows.take limit).mapM to_case_summary

/-! ## Warning store operations (impls/warnings.rs) -/

/-- `model/warnings.rs::WarningRecord`: `warn_number` is a `usize`. -/
structure WarningRecord where
  warn_number : Nat
deriving Repr, DecidableEq

/-- `model/warnings.rs::WarningEntry` (`u64` fields). -/
structure WarningEntry where
  warned_at : Nat
  moderator_id : Nat
  reason : String
deriving Repr, DecidableEq

/-- `impls/warnings.rs::record_warning`: insert a warning with
`warned_at = now()`, then return the total warning count for the
`(guild, user)` pair after the insert. -/
def record_warning (db : DbState) (guild user moderator : Nat) (reason : String)
    (clock : Nat) : DbState × Except String WarningRecord :=
  match (do
      let g ← u64ToI64 guild "guild_id out of i64 range"
      let u ← u64ToI64 user "user_id out of i64 range"
      let m ← u64ToI64 moderator "moderator_id out of i64 range"
      let w ← u64ToI64 clock "warned_at out of i64 range"
      Except.ok (g, u, m, w) : Except String (Int × Int × Int × Int)) with
  | Except.error e => (db, Except.error e)
  | Except.ok (g, u, m, w) =>
    let row : WarningRow :=
      { id := db.next_warning_id, guild_id := g, user_id := u, moderator_id := m,
        reason := reason, warned_at := w }
    let db' := { db with
      warnings := db.warnings ++ [row],
      next_warning_id := db.next_warning_id + 1 }
    let warn_number :=
      (db'.warnings.filter (fun r => r.guild_id == g && r.user_id == u)).length
    (db', Except.ok { warn_number })

/-- `impls/warnings.rs::warnings_since`: entries with `warned_at >= since`
(inclusive), ascending by `warned_at`. -/
def warnings_since (db : DbState) (guild user since : Nat) :
    Except String (List WarningEntry) := do
  let g ← u64ToI64 guild "guild_id out of i64 range"
  let u ← u64ToI64 user "user_id out of i64 range"
  let s ← u64ToI64 since "since out of i64 range"
  let rows := (db.warnings.filter
      (fun r => r.guild_id == g && r.user_id == u && decide (s ≤ r.warned_at))).mergeSort
    (fun a b => a.warned_at ≤ b.warned_at)
  rows.mapM (fun r => do
    let warned_at ← i64ToU64 r.warned_at "warned_at row out of u64 range"
    let moderator_id ← i64ToU64 r.moderator_id "moderator_id row out of u64 range"
    Except.ok { warned_at, moderator_id, reason := r.reason })

/-- `impls/warnings.rs::clear_warnings`: delete all warnings of the pair,
returning `rows_affected`. -/
def clear_warnings (db : DbState) (guild user : Nat) : DbState × Except String Nat :=
  match (do
      let g ← u64ToI64 guild "guild_id out of i64 range"
      let u ← u64ToI64 user "user_id out of i64 range"
      Except.ok (g, u) : Except String (Int × Int)) with
  | Except.error e => (db, Except.error e)
  | Except.ok (g, u) =>
    let hit := fun r : WarningRow => r.guild_id == g && r.user_id == u
    (({ db with warnings := db.warnings.filter (fun r => !(hit r)) }),
      Except.ok (db.warnings.filter hit).length)

/-- The `(warned_at, id)` ranking key of a warning row. -/
def warnKey (r : WarningRow) : Int × Int := (r.warned_at, r.id)

/-- The warnings of one `(guild, user)` pair, in table order. -/
def userWarnings (db : DbState) (g u : Int) : List WarningRow :=
  db.warnings.filter (fun r => r.guild_id == g && r.user_id == u)

/-- `impls/warnings.rs::remove_warning_by_number`: rank the pair's warnings
by `(warned_at, id)` ascending inside the deleting query itself
(`ROW_NUMBER` CTE), delete the row whose rank equals `warning_number`, and
report whether a row was deleted.  `id` is the primary key, so ranking keys
are distinct in every reachable state. -/
def remove_warning_by_number (db : DbState) (guild user warning_number : Nat) :
    DbState × Except String Bool :=
  match (do
      let g ← u64ToI64 guild "guild_id out of i64 range"
      let u ← u64ToI64 user "user_id out of i64 range"
      let n ← u64ToI64 warning_number "warning_number out of i64 range"
      Except.ok (g, u, n) : Except String (Int × Int × Int)) with
  | Except.error e => (db, Except.error e)
  | Except.ok (g, u, n) =>
    let ks := (userWarnings db g u).map warnKey
    let hit := fun r : WarningRow =>
      r.guild_id == g && r.user_id == u && ((rankOf ks (warnKey r) : Int) == n)
    (({ db with warnings := db.warnings.filter (fun r => !(hit r)) }),
      Except.ok (db.warnings.any hit))

/-! ## Escalation engine reads (impls/escalation.rs) -/

/-- `impls/escalation.rs::get_escalation_if_enabled`: the guild's config row
only when `enabled = TRUE` (`guild_id` is the primary key of
`escalation_config`). -/
def get_escalation_if_enabled (db : DbState) (guild : Nat) :
    Except String (Option EscalationConfig) := do
  let g ← u64ToI64 guild "guild_id out of i64 range"
  Except.ok (db.escalation_config.find? (fun c => c.guild_id == g && c.enabled))

/-- `impls/escalation.rs::count_warnings_in_window`: warnings of the pair
with `warned_at >= now - window_seconds` (the file's own `now_unix_secs`
returns `u64` cast with `as i64`). -/
def count_warnings_in_window (db : DbState) (guild user : Nat) (window_seconds : Int)
    (clock : Nat) : Except String Int := do
  let g ← u64ToI64 guild "guild_id out of i64 range"
  let u ← u64ToI64 user "user_id out of i64 range"
  let since := asI64 clock - window_seconds
  Except.ok ((db.warnings.filter (fun w =>
    w.guild_id == g && w.user_id == u && decide (since ≤ w.warned_at))).length : Int)

/-- `impls/escalation.rs::count_timeouts_in_window`: note that the query
reads `FROM moderation_cases`, not from the `mod_cases` table that
`create_case` writes (modelled by the separate `moderation_cases` list of
`DbState`). -/
def count_timeouts_in_window (db : DbState) (guild user : Nat) (window_seconds : Int)
    (clock : Nat) : Except String Int := do
  let g ← u64ToI64 guild "guild_id out of i64 range"
  let u ← u64ToI64 user "user_id out of i64 range"
  let since := asI64 clock - window_seconds
  Except.ok ((db.moderation_cases.filter (fun c =>
    c.guild_id == g && c.target_user_id == some u && decide (since ≤ c.created_at)
      && (c.action == "timeout" || c.action == "auto_timeout"
          || c.action == "word_filter_timeout"))).length : Int)

/-! ## Schema-compat backfill (impls/cases.rs::ensure_case_schema_compat) -/

/-- The `CASE WHEN action = ... THEN ...` expression inside the backfill of
`ensure_case_schema_compat`.  Unlike `action_code`, it has no arms for the
`word_filter_*` actions or for `auto_timeout`; those all resolve to `"M"`. -/
def backfill_code (action : String) : String :=
  if action = "warn" then "W"
  else if action = "ban" then "B"
  else if action = "kick" then "K"
  else if action = "timeout" then "T"
  else if action = "unban" then "UB"
  else if action = "untimeout" then "UT"
  else if action = "unwarn" then "UW"
  else if action = "unwarn_all" then "UWA"
  else if action = "purge" then "P"
  else if action = "terminate" then "TR"
  else "M"

/-- The `(created_at, id)` ranking key of a case row. -/
def caseKey (r : CaseRow) : Int × Int := (r.created_at, r.id)

/-- `resolved_number` of the backfill's `ranked` CTE: `ROW_NUMBER()` over
the partition of `mod_cases` with the same `guild_id` and the same resolved
code, ordered by `(created_at, id)` ascending. -/
def backfillRank (db : DbState) (r : CaseRow) : Nat :=
  rankOf ((db.mod_cases.filter (fun x =>
    x.guild_id == r.guild_id && backfill_code x.action == backfill_code r.action)).map
      caseKey) (caseKey r)

/-- The backfill guard `mc.action_case_number = 0 OR mc.case_code = 'M'`. -/
def backfillGuard (r : CaseRow) : Bool :=
  r.action_case_number == 0 || r.case_code == "M"

/-- The per-row effect of the backfill `UPDATE`: a row matching the guard
receives the resolved code and the partition rank computed over the
pre-update snapshot `db`; other rows are untouched. -/
def backfillUpdate (db : DbState) (r : CaseRow) : CaseRow :=
  if backfillGuard r then
    { r with case_code := backfill_code r.action,
             action_case_number := (backfillRank db r : Int) }
  else r

/-- `impls/cases.rs::ensure_case_schema_compat`: the column/index DDL is a
schema no-op in the model; the `WITH ranked ... UPDATE` statement rewrites
`(case_code, action_case_number)` of every row matching the guard, using
codes and ranks computed over the pre-update table snapshot. -/
def ensure_case_schema_compat (db : DbState) : DbState :=
  { db with mod_cases := db.mod_cases.map (backfillUpdate db) }

/-! ## check_and_escalate (autumn-commands/src/moderation/escalation_check.rs) -/

/-- `escalation_check.rs::EscalationResult`. -/
structure EscalationResult where
  timed_out : Bool
  timeout_seconds : Option Int
  tier : Option Int
deriving Repr, DecidableEq

/-- Storage-failure injection for the four database calls made by
`check_and_escalate`; a `true` flag makes the corresponding call return a
database error.  `noFaults` is the error-free execution. -/
structure Faults where
  fail_config : Bool
  fail_warn_count : Bool
  fail_timeout_count : Bool
  fail_create : Bool
deriving Repr, DecidableEq

def noFaults : Faults :=
  { fail_config := false, fail_warn_count := false,
    fail_timeout_count := false, fail_create := false }

/-- `escalation_check.rs::check_and_escalate`.  Steps that only touch the
external platform (applying the member timeout, publishing to the modlog
channel, sending the DM) do not touch the database state and are omitted;
per the source they are best-effort and their failures do not change the
result.  On an error from `get_escalation_if_enabled`,
`count_warnings_in_window` or `count_timeouts_in_window` the function logs
and returns `None`; on an error from `create_case` it logs and still
returns `Some(EscalationResult)`. -/
def check_and_escalate (db : DbState) (f : Faults) (guild target_user bot_user : Nat)
    (clock : Nat) : DbState × Option EscalationResult :=
  if f.fail_config then (db, none) else
  match get_escalation_if_enabled db guild with
  | Except.error _ => (db, none)
  | Except.ok none => (db, none)
  | Except.ok (some config) =>
    if f.fail_warn_count then (db, none) else
    match count_warnings_in_window db guild target_user config.warn_window_seconds clock with
    | Except.error _ => (db, none)
    | Except.ok warn_count =>
      if warn_count < config.warn_threshold then (db, none) else
      if f.fail_timeout_count then (db, none) else
      match count_timeouts_in_window db guild target_user
          config.timeout_window_seconds clock with
      | Except.error _ => (db, none)
      | Except.ok timeout_count =>
        let timeout_secs := escalation_timeout_seconds timeout_count
        let reason := "Auto-escalation: " ++ toString warn_count ++ " warning(s) in "
          ++ format_compact_duration (asU64 config.warn_window_seconds)
        let nc : NewCase :=
          { guild_id := guild, target_user_id := some target_user,
            moderator_user_id := bot_user, action := "auto_timeout",
            reason := reason, status := "completed",
            duration_seconds := some (asU64 timeout_secs) }
        let res : EscalationResult :=
          { timed_out := true, timeout_seconds := some timeout_secs,
            tier := some timeout_count }
        if f.fail_create then (db, some res) else
        ((create_case db nc clock).1, some res)

/-- Modelled from the spec: the count that spec section 4.3 step 3 (and
claim C1) describes — prior timeout-type cases (`timeout`, `auto_timeout`,
`word_filter_timeout`) of the target user *in the case ledger* (the
`mod_cases` table that `create_case` writes) within the window.  The schema
section of the spec names `mod_cases` as the cases table; no migration in
the repository creates or fills a `moderation_cases` table. -/
def ledger_timeouts_in_window (db : DbState) (guild user : Nat) (window_seconds : Int)
    (clock : Nat) : Except String Int := do
  let g ← u64ToI64 guild "guild_id out of i64 range"
  let u ← u64ToI64 user "user_id out of i64 range"
  let since := asI64 clock - window_seconds
  Except.ok ((db.mod_cases.filter (fun c =>
    c.guild_id == g && c.target_user_id == some u && decide (since ≤ c.created_at)
      && (c.action == "timeout" || c.action == "auto_timeout"
          || c.action == "word_filter_timeout"))).length : Int)

/-! ## Concrete scenario states -/

/-- The section 8.8 starting state: escalation enabled for guild 1 with
`warn_threshold = 3`, `warn_window_seconds = 86400`,
`timeout_window_seconds = 604800`, and three warnings for user 2 inside the
window. -/
def scenarioDb : DbState :=
  { emptyDb with
    escalation_config :=
      [{ guild_id := 1, enabled := true, warn_threshold := 3,
         warn_window_seconds := 86400, timeout_window_seconds := 604800 }]
    warnings :=
      [{ id := 1, guild_id := 1, user_id := 2, moderator_id := 5,
         reason := "spam", warned_at := 999000 },
       { id := 2, guild_id := 1, user_id := 2, moderator_id := 5,
         reason := "spam", warned_at := 999100 },
       { id := 3, guild_id := 1, user_id := 2, moderator_id := 5,
         reason := "spam", warned_at := 999200 }]
    next_warning_id := 4 }

/-- State after the first escalation (which creates the `auto_timeout`
case in the ledger). -/
def scenarioDb1 : DbState := (check_and_escalate scenarioDb noFaults 1 2 99 1000000).1

/-- State after the fourth qualifying warning. -/
def scenarioDb2 : DbState := (record_warning scenarioDb1 1 2 5 "again" 1000050).1

/-- A historical `auto_timeout` row as it sits before the backfill: default
`case_code = 'M'` and `action_case_number = 0`. -/
def legacyAutoTimeoutRow : CaseRow :=
  { id := 1, guild_id := 1, case_number := 1, case_code := "M",
    action_case_number := 0, target_user_id := some 2, moderator_user_id := 3,
    action := "auto_timeout", reason := "r", status := "completed",
    duration_seconds := some 300, created_at := 10, updated_at := 10 }

/-- `[1, 2, ..., n]` as integers: the gap-free label sequence. -/
def intRange1 (n : Nat) : List Int := (List.range' 1 n).map (fun k => Int.ofNat k)

/-- A serialised run of `create_case` transactions from a starting state:
the per-guild advisory lock serialises concurrent case creation, so any
concurrent execution is equivalent to some such sequence. -/
def applyCreates (db : DbState) (ops : List (NewCase × Nat)) : DbState :=
  ops.foldl (fun s p => (create_case s p.1 p.2).1) db

/-- The case-numbering invariant of spec sections 3 and 8: per
`(guild_id, case_code)` the `action_case_number` values are exactly
`{1, ..., N}` (as a permutation of `[1..N]`), and per guild the
`case_number` values are strictly increasing in commit (table) order across
all case codes — hence never reused. -/
def CaseNumberingInv (db : DbState) : Prop :=
  (∀ (g : Int) (c : String),
    ((db.mod_cases.filter (fun r => r.guild_id == g && r.case_code == c)).map
      (fun r => r.action_case_number)).Perm
      (intRange1 (db.mod_cases.filter
        (fun r => r.guild_id == g && r.case_code == c)).length))
  ∧ (∀ g : Int,
      ((db.mod_cases.filter (fun r => r.guild_id == g)).map
        (fun r => r.case_number)).Pairwise (· < ·))

/-- Stored case numbers are non-negative — true of every state the system
itself produces (`create_case` assigns `MAX + 1` from 0 and the backfill
assigns ranks from 1). -/
def WellFormedCases (db : DbState) : Prop :=
  ∀ r ∈ db.mod_cases, 0 ≤ r.case_number ∧ 0 ≤ r.action_case_number

/-! # Theorems -/

/-! ## C4: escalation tier mapping -/

/-- C4: `escalation_timeout_seconds` maps a previous timeout count of 0 to
300, 1 to 1800, 2 to 7200, 3 to 86400, and every count ≥ 4 (for example
100) to 604800; on counts ≥ 0 the function is monotonically non-decreasing
and saturates at the last tier. -/
theorem escalation_timeout_seconds_table :
    escalation_timeout_seconds 0 = 300
    ∧ escalation_timeout_seconds 1 = 1800
    ∧ escalation_timeout_seconds 2 = 7200
    ∧ escalation_timeout_seconds 3 = 86400
    ∧ escalation_timeout_seconds 4 = 604800
    ∧ escalation_timeout_seconds 100 = 604800
    ∧ (∀ n : Int, 4 ≤ n → escalation_timeout_seconds n = 604800)
    ∧ (∀ a b : Int, 0 ≤ a → a ≤ b →
        escalation_timeout_seconds a ≤ escalation_timeout_seconds b) := by
  refine ⟨rfl, rfl, rfl, rfl, rfl, rfl, ?_, ?_⟩
  · intro n hn
    unfold escalation_timeout_seconds
    split_ifs <;> omega
  · intro a b ha hab
    unfold escalation_timeout_seconds
    split_ifs <;> omega

/-- Witness for C4: the quantified parts of the tier-mapping theorem
evaluated at concrete counts. -/
theorem escalation_timeout_seconds_table_witness :
    escalation_timeout_seconds 7 = 604800
    ∧ escalation_timeout_seconds 2 ≤ escalation_timeout_seconds 3 :=
  ⟨escalation_timeout_seconds_table.2.2.2.2.2.2.1 7 (by norm_num),
    escalation_timeout_seconds_table.2.2.2.2.2.2.2 2 3 (by norm_num) (by norm_num)⟩

/-! ## C7: action-to-code table -/

/-- C7 counterexample: the action string `"word_filter_mute"` matches the
pattern `word_filter_*` (it is `"word_filter_"` followed by `"mute"`), yet
`action_code` maps it to `"M"`, not `"WF"`: only the four concrete
word-filter action strings of the source map to `"WF"`. -/
theorem action_code_word_filter_counterexample :
    action_code ("word_filter_" ++ "mute") = "M"
    ∧ "word_filter_" ++ "mute" ≠ "word_filter_timeout" := by
  constructor <;> decide

/-- C7 (amended): `action_code` follows the fixed table — warn→W, ban→B,
kick→K, timeout→T, unban→UB, untimeout→UT, unwarn→UW, unwarn_all→UWA,
purge→P, terminate→TR, auto_timeout→AT, exactly the four actions
word_filter_timeout / word_filter_delete / word_filter_log /
word_filter_warn→WF, and every other action (including other strings
starting with `word_filter_`) →M. -/
theorem action_code_table :
    action_code "warn" = "W"
    ∧ action_code "ban" = "B"
    ∧ action_code "kick" = "K"
    ∧ action_code "timeout" = "T"
    ∧ action_code "unban" = "UB"
    ∧ action_code "untimeout" = "UT"
    ∧ action_code "unwarn" = "UW"
    ∧ action_code "unwarn_all" = "UWA"
    ∧ action_code "purge" = "P"
    ∧ action_code "terminate" = "TR"
    ∧ action_code "word_filter_timeout" = "WF"
    ∧ action_code "word_filter_delete" = "WF"
    ∧ action_code "word_filter_log" = "WF"
    ∧ action_code "word_filter_warn" = "WF"
    ∧ action_code "auto_timeout" = "AT"
    ∧ (∀ a : String,
        a ∉ (["warn", "ban", "kick", "timeout", "unban", "untimeout", "unwarn",
          "unwarn_all", "purge", "terminate", "word_filter_timeout",
          "word_filter_delete", "word_filter_log", "word_filter_warn",
          "auto_timeout"] : List String) →
        action_code a = "M") := by
  refine ⟨rfl, rfl, rfl, rfl, rfl, rfl, rfl, rfl, rfl, rfl, rfl, rfl, rfl, rfl, rfl, ?_⟩
  intro a ha
  unfold action_code
  split_ifs <;> simp_all

/-- Witness for C7: the default arm of the table at a concrete unknown
action. -/
theorem action_code_table_witness : action_code "note" = "M" :=
  action_code_table.2.2.2.2.2.2.2.2.2.2.2.2.2.2.2 "note" (by decide)

/-! ## C1: the tier count reads a table the ledger never writes

`count_timeouts_in_window` selects `FROM moderation_cases`, while
`create_case` inserts into `mod_cases` (the table the spec's schema section
names).  The concrete scenario of spec section 8.8 exhibits the
divergence. -/

/-- C1 (code-bug evidence): in the spec section 8.8 scenario the first
check correctly triggers with tier 0 / 300 s and records an `auto_timeout`
case under code `AT` in the ledger; after a fourth qualifying warning the
ledger holds exactly one qualifying timeout-type case for the user inside
`timeout_window_seconds` (so the claimed `previous_timeout_count` is 1 and
the claimed escalation is tier 1 / 1800 s), yet `check_and_escalate`
re-triggers with tier 0 / 300 s again, because `count_timeouts_in_window`
counts rows of the `moderation_cases` table, which `create_case` never
writes. -/
theorem check_and_escalate_stale_count_scenario :
    (check_and_escalate scenarioDb noFaults 1 2 99 1000000).2
      = some { timed_out := true, timeout_seconds := some 300, tier := some 0 }
    ∧ (scenarioDb1.mod_cases.map (fun r => (r.action, r.case_code, r.action_case_number,
        r.duration_seconds)))
      = [("auto_timeout", "AT", 1, some 300)]
    ∧ ledger_timeouts_in_window scenarioDb2 1 2 604800 1000100 = Except.ok 1
    ∧ escalation_timeout_seconds 1 = 1800
    ∧ (check_and_escalate scenarioDb2 noFaults 1 2 99 1000100).2
      = some { timed_out := true, timeout_seconds := some 300, tier := some 0 } := by
  refine ⟨by decide, by decide, rfl, rfl, by decide⟩

/-! ## Ranking lemmas

`ROW_NUMBER() OVER (ORDER BY (time, id) ASC)` is modelled by `rankOf`.  On
a duplicate-free key set the ranks are the order statistics: they lie in
`1..N`, respect the key order, and hit every value of `1..N` exactly
once. -/

theorem keyLt_iff (a b : Int × Int) :
    keyLt a b = true ↔ (a.1 < b.1 ∨ (a.1 = b.1 ∧ a.2 < b.2)) := by
  simp [keyLt]

theorem keyLt_irrefl (a : Int × Int) : keyLt a a = false := by
  simp [keyLt]

theorem keyLt_trans {a b c : Int × Int} (h1 : keyLt a b = true)
    (h2 : keyLt b c = true) : keyLt a c = true := by
  obtain ⟨a1, a2⟩ := a; obtain ⟨b1, b2⟩ := b; obtain ⟨c1, c2⟩ := c
  simp [keyLt] at h1 h2 ⊢
  omega

theorem keyLt_asymm {a b : Int × Int} (h : keyLt a b = true) : keyLt b a = false := by
  obtain ⟨a1, a2⟩ := a; obtain ⟨b1, b2⟩ := b
  simp [keyLt] at h ⊢
  omega

theorem keyLt_total {a b : Int × Int} (h : a ≠ b) :
    keyLt a b = true ∨ keyLt b a = true := by
  obtain ⟨a1, a2⟩ := a; obtain ⟨b1, b2⟩ := b
  simp [Prod.mk.injEq] at h
  simp [keyLt]
  omega

theorem rankOf_eq_countP (ks : List (Int × Int)) (k : Int × Int) :
    rankOf ks k = 1 + ks.countP (fun j => keyLt j k) := by
  simp [rankOf, List.countP_eq_length_filter]

/-- Strict version of `List.countP_mono_left`: the count strictly grows
when some list element satisfies `q` but not `p`. -/
theorem countP_lt_of_witness {α : Type} {p q : α → Bool} :
    ∀ {l : List α}, (∀ x ∈ l, p x = true → q x = true) →
      ∀ {x : α}, x ∈ l → p x = false → q x = true →
      List.countP p l < List.countP q l := by
  intro l
  induction l with
  | nil => intro _ x hx; exact absurd hx (List.not_mem_nil x)
  | cons a t ih =>
    intro hmono x hx hpx hqx
    have hmono' : ∀ y ∈ t, p y = true → q y = true := fun y hy => hmono y (List.mem_cons_of_mem a hy)
    rcases List.mem_cons.mp hx with rfl | hxt
    · have hle := List.countP_mono_left hmono'
      simp only [List.countP_cons, hpx, hqx]
      simp only [Bool.false_eq_true, if_false, if_true]
      omega
    · have hlt := ih hmono' hxt hpx hqx
      have hpq : (if p a = true then 1 else 0) ≤ (if q a = true then 1 else 0) := by
        by_cases hp : p a = true
        · simp [hp, hmono a (List.mem_cons_self a t) hp]
        · simp [hp]
      simp only [List.countP_cons]
      omega

theorem rankOf_pos (ks : List (Int × Int)) (k : Int × Int) : 1 ≤ rankOf ks k := by
  simp [rankOf]

theorem rankOf_le_length {ks : List (Int × Int)} {k : Int × Int} (hk : k ∈ ks) :
    rankOf ks k ≤ ks.length := by
  have hlt : (ks.filter (fun j => keyLt j k)).length < ks.length :=
    List.length_filter_lt_length_iff_exists.mpr ⟨k, hk, by simp [keyLt_irrefl]⟩
  unfold rankOf
  omega

theorem rankOf_lt_rankOf {ks : List (Int × Int)} {k1 k2 : Int × Int}
    (h1 : k1 ∈ ks) (hlt : keyLt k1 k2 = true) : rankOf ks k1 < rankOf ks k2 := by
  rw [rankOf_eq_countP, rankOf_eq_countP]
  have := countP_lt_of_witness (p := fun j => keyLt j k1) (q := fun j => keyLt j k2)
    (fun x _ hp => keyLt_trans hp hlt) h1 (keyLt_irrefl k1) hlt
  omega

theorem rankOf_injOn {ks : List (Int × Int)} {k1 k2 : Int × Int}
    (h1 : k1 ∈ ks) (h2 : k2 ∈ ks) (heq : rankOf ks k1 = rankOf ks k2) : k1 = k2 := by
  by_contra hne
  rcases keyLt_total hne with h | h
  · exact absurd heq (Nat.ne_of_lt (rankOf_lt_rankOf h1 h))
  · exact absurd heq.symm (Nat.ne_of_lt (rankOf_lt_rankOf h2 h))

/-- In a strictly sorted key list, the number of keys below the `i`-th key
is exactly `i`. -/
theorem countP_keyLt_get {s : List (Int × Int)}
    (hp : s.Pairwise (fun a b => keyLt a b = true)) :
    ∀ (i : Nat) (h : i < s.length), s.countP (fun j => keyLt j s[i]) = i := by
  induction s with
  | nil => intro i h; exact absurd h (by simp)
  | cons a t ih =>
    intro i h
    rcases List.pairwise_cons.mp hp with ⟨ha, ht⟩
    cases i with
    | zero =>
      have hz : ∀ j ∈ t, ¬(keyLt j a = true) := by
        intro j hj hcon
        have hfalse := keyLt_asymm (ha j hj)
        rw [hcon] at hfalse
        exact absurd hfalse (by simp)
      simp [List.countP_cons, keyLt_irrefl, List.countP_eq_zero.mpr hz]
    | succ i =>
      have hit : i < t.length := by simpa using h
      have hlt : keyLt a t[i] = true := ha _ (List.getElem_mem hit)
      have hcount := ih ht i hit
      simp only [List.countP_cons, List.getElem_cons_succ]
      rw [hcount]
      simp [hlt]

/-- Every rank from `1` to `N` is taken by some key (duplicate-free key
sets). -/
theorem rankOf_surj {ks : List (Int × Int)} (hnd : ks.Nodup) {n : Nat}
    (h1 : 1 ≤ n) (h2 : n ≤ ks.length) : ∃ k ∈ ks, rankOf ks k = n := by
  have hperm : (ks.mergeSort (fun a b => !(keyLt b a))).Perm ks :=
    List.mergeSort_perm ks _
  have hsorted :
      (ks.mergeSort (fun a b => !(keyLt b a))).Pairwise
        (fun a b => (!(keyLt b a)) = true) := by
    apply List.sorted_mergeSort
    · intro a b c hab hbc
      obtain ⟨a1, a2⟩ := a; obtain ⟨b1, b2⟩ := b; obtain ⟨c1, c2⟩ := c
      simp [keyLt] at hab hbc ⊢
      omega
    · intro a b
      obtain ⟨a1, a2⟩ := a; obtain ⟨b1, b2⟩ := b
      simp [keyLt]
      omega
  have hnds : (ks.mergeSort (fun a b => !(keyLt b a))).Nodup :=
    hperm.nodup_iff.mpr hnd
  have hstrict :
      (ks.mergeSort (fun a b => !(keyLt b a))).Pairwise
        (fun a b => keyLt a b = true) := by
    refine (hsorted.and hnds).imp ?_
    rintro a b ⟨hle, hne⟩
    refine (keyLt_total hne).resolve_right ?_
    intro hba
    rw [hba] at hle
    exact absurd hle (by simp)
  have hi : n - 1 < (ks.mergeSort (fun a b => !(keyLt b a))).length := by
    rw [hperm.length_eq]
    omega
  refine ⟨(ks.mergeSort (fun a b => !(keyLt b a)))[n - 1],
    hperm.mem_iff.mp (List.getElem_mem hi), ?_⟩
  rw [rankOf_eq_countP, ← hperm.countP_eq, countP_keyLt_get hstrict (n - 1) hi]
  omega

/-- On a duplicate-free key set of size `N`, the multiset of ranks is
exactly `{1, ..., N}`. -/
theorem map_rankOf_perm {ks : List (Int × Int)} (hnd : ks.Nodup) :
    (ks.map (fun k => (rankOf ks k : Int))).Perm (intRange1 ks.length) := by
  apply List.perm_of_nodup_nodup_toFinset_eq
  · refine List.Nodup.map_on ?_ hnd
    intro x hx y hy hxy
    exact rankOf_injOn hx hy (by exact_mod_cast hxy)
  · refine List.Nodup.map_on ?_ (List.nodup_range' 1 ks.length)
    intro x _ y _ hxy
    exact Int.ofNat.inj hxy
  · ext n
    simp only [List.mem_toFinset, List.mem_map, intRange1, List.mem_range'_1]
    constructor
    · rintro ⟨k, hk, rfl⟩
      exact ⟨rankOf ks k, ⟨rankOf_pos ks k, by have := rankOf_le_length hk; omega⟩, rfl⟩
    · rintro ⟨m, ⟨hm1, hm2⟩, rfl⟩
      obtain ⟨k, hk, hrank⟩ := rankOf_surj hnd hm1 (by omega)
      exact ⟨k, hk, by rw [hrank]; rfl⟩

/-! ## C8: the schema-compat backfill -/

theorem backfillUpdate_guild_id (db : DbState) (r : CaseRow) :
    (backfillUpdate db r).guild_id = r.guild_id := by
  unfold backfillUpdate; split <;> rfl

theorem backfillUpdate_action (db : DbState) (r : CaseRow) :
    (backfillUpdate db r).action = r.action := by
  unfold backfillUpdate; split <;> rfl

theorem backfillUpdate_caseKey (db : DbState) (r : CaseRow) :
    caseKey (backfillUpdate db r) = caseKey r := by
  unfold backfillUpdate; split <;> rfl

/-- The backfill rank only reads fields the backfill never writes, so it is
unchanged by running the backfill. -/
theorem backfillRank_ensure (db : DbState) (s r : CaseRow)
    (hg : s.guild_id = r.guild_id) (ha : s.action = r.action)
    (hk : caseKey s = caseKey r) :
    backfillRank (ensure_case_schema_compat db) s = backfillRank db r := by
  unfold backfillRank ensure_case_schema_compat
  simp only [hg, ha, hk]
  rw [List.filter_map, List.map_map]
  rw [List.filter_congr (fun x _ => by
    rw [Function.comp_apply, backfillUpdate_guild_id, backfillUpdate_action])]
  rw [List.map_congr_left (fun x _ => by
    rw [Function.comp_apply, backfillUpdate_caseKey])]

/-- Running the backfill a second time rewrites every row to the values it
already has: unmatched rows stay unmatched, and a matched row either left
the guard (its code is no longer `"M"` and its rank is at least 1) or keeps
code `"M"` and is re-assigned the identical rank. -/
theorem backfillUpdate_stable (db : DbState) :
    ∀ r ∈ db.mod_cases,
      backfillUpdate (ensure_case_schema_compat db) (backfillUpdate db r)
        = backfillUpdate db r := by
  intro r _
  by_cases hg : backfillGuard r = true
  · have hg' : r.action_case_number = 0 ∨ r.case_code = "M" := by
      simpa [backfillGuard] using hg
    by_cases hm : backfill_code r.action = "M"
    · have hrank : backfillRank (ensure_case_schema_compat db)
          { r with
            case_code := backfill_code r.action
            action_case_number := (backfillRank db r : Int) } = backfillRank db r :=
        backfillRank_ensure db _ r rfl rfl rfl
      simp [backfillUpdate, backfillGuard, hg', hm]
      simpa [hm] using hrank
    · have h1 : 1 ≤ backfillRank db r := by
        unfold backfillRank
        exact rankOf_pos _ _
      have hne : ¬((backfillRank db r : Int) = 0 ∨ backfill_code r.action = "M") := by
        push_neg
        exact ⟨by omega, hm⟩
      simp [backfillUpdate, backfillGuard, hg', hne]
      intro hcon
      rcases hcon with h0 | hM
      · omega
      · exact absurd hM hm
  · have hg' : ¬(r.action_case_number = 0 ∨ r.case_code = "M") := by
      simpa [backfillGuard] using hg
    simp [backfillUpdate, backfillGuard, hg']

/-- A second run of the backfill produces the identical state. -/
theorem ensure_case_schema_compat_idem (db : DbState) :
    ensure_case_schema_compat (ensure_case_schema_compat db)
      = ensure_case_schema_compat db := by
  have hlist : (ensure_case_schema_compat db).mod_cases.map
      (backfillUpdate (ensure_case_schema_compat db))
        = (ensure_case_schema_compat db).mod_cases := by
    show (db.mod_cases.map (backfillUpdate db)).map
      (backfillUpdate (ensure_case_schema_compat db)) = _
    rw [List.map_map]
    exact List.map_congr_left (fun r hr => backfillUpdate_stable db r hr)
  calc ensure_case_schema_compat (ensure_case_schema_compat db)
      = { ensure_case_schema_compat db with
          mod_cases := (ensure_case_schema_compat db).mod_cases.map
            (backfillUpdate (ensure_case_schema_compat db)) } := rfl
    _ = { ensure_case_schema_compat db with
          mod_cases := (ensure_case_schema_compat db).mod_cases } := by rw [hlist]
    _ = ensure_case_schema_compat db := rfl

/-- Once no row matches the backfill guard, the backfill changes nothing. -/
theorem ensure_case_schema_compat_noop (db : DbState)
    (h : ∀ r ∈ db.mod_cases, r.action_case_number ≠ 0 ∧ r.case_code ≠ "M") :
    ensure_case_schema_compat db = db := by
  have hlist : db.mod_cases.map (backfillUpdate db) = db.mod_cases := by
    have hpt : ∀ r ∈ db.mod_cases, backfillUpdate db r = id r := by
      intro r hr
      have hg : ¬(backfillGuard r = true) := by
        obtain ⟨h1, h2⟩ := h r hr
        simp [backfillGuard, h1, h2]
      rw [backfillUpdate, if_neg hg]
      rfl
    rw [List.map_congr_left hpt, List.map_id]
  calc ensure_case_schema_compat db
      = { db with mod_cases := db.mod_cases.map (backfillUpdate db) } := rfl
    _ = { db with mod_cases := db.mod_cases } := by rw [hlist]
    _ = db := rfl

/-- Rank monotonicity of the backfill numbering: within one
`(guild_id, resolved code)` partition, rows earlier in `(created_at, id)`
order receive strictly smaller numbers. -/
theorem backfillRank_mono (db : DbState) {r1 r2 : CaseRow}
    (hr1 : r1 ∈ db.mod_cases) (hg : r1.guild_id = r2.guild_id)
    (hc : backfill_code r1.action = backfill_code r2.action)
    (hlt : keyLt (caseKey r1) (caseKey r2) = true) :
    backfillRank db r1 < backfillRank db r2 := by
  unfold backfillRank
  rw [hg, hc]
  apply rankOf_lt_rankOf ?_ hlt
  exact List.mem_map_of_mem caseKey (List.mem_filter.mpr ⟨hr1, by simp [hg, hc]⟩)

/-- When every row matches the guard (a fresh migration) and the
`(created_at, id)` keys are distinct, the backfill's numbers within each
`(guild, code)` partition of the resulting table are exactly
`{1, ..., N}`. -/
theorem ensure_case_schema_compat_range (db : DbState)
    (hnd : (db.mod_cases.map caseKey).Nodup)
    (hall : ∀ r ∈ db.mod_cases, backfillGuard r = true) (g : Int) (c : String) :
    (((ensure_case_schema_compat db).mod_cases.filter
        (fun r => r.guild_id == g && r.case_code == c)).map
      (fun r => r.action_case_number)).Perm
    (intRange1 ((ensure_case_schema_compat db).mod_cases.filter
        (fun r => r.guild_id == g && r.case_code == c)).length) := by
  have hmc : (ensure_case_schema_compat db).mod_cases
      = db.mod_cases.map (backfillUpdate db) := rfl
  have hupd : ∀ x ∈ db.mod_cases, backfillUpdate db x
      = { x with
          case_code := backfill_code x.action
          action_case_number := (backfillRank db x : Int) } := by
    intro x hx
    rw [backfillUpdate, if_pos (hall x hx)]
  have hfilter : (ensure_case_schema_compat db).mod_cases.filter
      (fun r => r.guild_id == g && r.case_code == c)
      = (db.mod_cases.filter
          (fun x => x.guild_id == g && backfill_code x.action == c)).map
        (backfillUpdate db) := by
    rw [hmc, List.filter_map]
    congr 1
    apply List.filter_congr
    intro x hx
    rw [Function.comp_apply, hupd x hx]
  rw [hfilter]
  set q : CaseRow → Bool := fun x => x.guild_id == g && backfill_code x.action == c with hq
  have hsub : (db.mod_cases.filter q).Sublist db.mod_cases := List.filter_sublist _
  have hndq : ((db.mod_cases.filter q).map caseKey).Nodup :=
    List.Nodup.sublist (List.Sublist.map caseKey hsub) hnd
  have hlen : ((db.mod_cases.filter q).map (backfillUpdate db)).length
      = ((db.mod_cases.filter q).map caseKey).length := by
    simp
  have hmap : ((db.mod_cases.filter q).map (backfillUpdate db)).map
      (fun r => r.action_case_number)
      = ((db.mod_cases.filter q).map caseKey).map
        (fun k => (rankOf ((db.mod_cases.filter q).map caseKey) k : Int)) := by
    rw [List.map_map, List.map_map]
    apply List.map_congr_left
    intro x hx
    have hxl : x ∈ db.mod_cases := List.mem_of_mem_filter hx
    have hqx : q x = true := List.of_mem_filter hx
    have hxg : x.guild_id = g := by
      have := hqx
      rw [hq] at this
      simp at this
      exact this.1
    have hxc : backfill_code x.action = c := by
      have := hqx
      rw [hq] at this
      simp at this
      exact this.2
    have hrank : backfillRank db x
        = rankOf ((db.mod_cases.filter q).map caseKey) (caseKey x) := by
      unfold backfillRank
      rw [hq]
      rw [List.filter_congr (fun y _ => by rw [hxg, hxc])]
    simp only [Function.comp_apply, hupd x hxl, hrank]
  rw [hmap, hlen]
  exact map_rankOf_perm hndq

/-- C8 counterexample: the backfill does not assign codes from the action
table: a historical `auto_timeout` row is backfilled to code `"M"`, while
the action table (`action_code`, used by `create_case`) assigns `"AT"`;
such a row also still matches the guard after the run. -/
theorem ensure_case_schema_compat_counterexample :
    ((ensure_case_schema_compat
        { emptyDb with mod_cases := [legacyAutoTimeoutRow] }).mod_cases.map
      (fun r => (r.case_code, r.action_case_number)))
      = [("M", 1)]
    ∧ action_code "auto_timeout" = "AT"
    ∧ (∀ r ∈ (ensure_case_schema_compat
        { emptyDb with mod_cases := [legacyAutoTimeoutRow] }).mod_cases,
        backfillGuard r = true) := by
  refine ⟨by decide, rfl, by decide⟩

/-- C8 (amended): the backfill is idempotent — a second run of
`ensure_case_schema_compat` produces the identical `(case_code,
action_case_number)` assignment (indeed the identical state); once every
row has a code other than `"M"` and a nonzero `action_case_number`, no row
matches the `action_case_number = 0 OR case_code = 'M'` guard and the run
is a no-op; the backfill assigns codes from its own reduced lookup, which
lacks the `word_filter_*`→WF and `auto_timeout`→AT entries of the action
table (those actions resolve to `"M"`); and it numbers rows in
`(created_at, id)` ascending order partitioned by `(guild_id, resolved
code)` — strictly monotone within a partition, and exactly `{1..N}` per
partition when every row matches the guard. -/
theorem ensure_case_schema_compat_properties :
    (∀ db : DbState,
      ensure_case_schema_compat (ensure_case_schema_compat db)
        = ensure_case_schema_compat db)
    ∧ (∀ db : DbState,
        (∀ r ∈ db.mod_cases, r.action_case_number ≠ 0 ∧ r.case_code ≠ "M") →
        ensure_case_schema_compat db = db)
    ∧ (backfill_code "warn" = "W" ∧ backfill_code "ban" = "B"
        ∧ backfill_code "kick" = "K" ∧ backfill_code "timeout" = "T"
        ∧ backfill_code "unban" = "UB" ∧ backfill_code "untimeout" = "UT"
        ∧ backfill_code "unwarn" = "UW" ∧ backfill_code "unwarn_all" = "UWA"
        ∧ backfill_code "purge" = "P" ∧ backfill_code "terminate" = "TR"
        ∧ backfill_code "auto_timeout" = "M"
        ∧ backfill_code "word_filter_timeout" = "M")
    ∧ (∀ (db : DbState) (r1 r2 : CaseRow), r1 ∈ db.mod_cases →
        r1.guild_id = r2.guild_id →
        backfill_code r1.action = backfill_code r2.action →
        keyLt (caseKey r1) (caseKey r2) = true →
        backfillRank db r1 < backfillRank db r2)
    ∧ (∀ db : DbState, (db.mod_cases.map caseKey).Nodup →
        (∀ r ∈ db.mod_cases, backfillGuard r = true) →
        ∀ (g : Int) (c : String),
          (((ensure_case_schema_compat db).mod_cases.filter
              (fun r => r.guild_id == g && r.case_code == c)).map
            (fun r => r.action_case_number)).Perm
          (intRange1 ((ensure_case_schema_compat db).mod_cases.filter
              (fun r => r.guild_id == g && r.case_code == c)).length)) :=
  ⟨ensure_case_schema_compat_idem,
    ensure_case_schema_compat_noop,
    ⟨rfl, rfl, rfl, rfl, rfl, rfl, rfl, rfl, rfl, rfl, rfl, rfl⟩,
    fun db _ _ h1 hg hc hlt => backfillRank_mono db h1 hg hc hlt,
    ensure_case_schema_compat_range⟩

/-- Witness for C8: the amended properties applied to a concrete two-row
table (one `warn` row, one `auto_timeout` row, both unmigrated). -/
theorem ensure_case_schema_compat_properties_witness :
    ensure_case_schema_compat (ensure_case_schema_compat
        { emptyDb with mod_cases := [legacyAutoTimeoutRow] })
      = ensure_case_schema_compat { emptyDb with mod_cases := [legacyAutoTimeoutRow] }
    ∧ ensure_case_schema_compat emptyDb = emptyDb := by
  constructor
  · exact ensure_case_schema_compat_properties.1
      { emptyDb with mod_cases := [legacyAutoTimeoutRow] }
  · exact ensure_case_schema_compat_properties.2.1 emptyDb (by simp [emptyDb])

/-! ## C9: ordinal deletion of warnings -/

theorem remove_warning_main (db : DbState) (guild user n : Nat)
    (hg : guild ≤ i64MaxNat) (hu : user ≤ i64MaxNat) (hn : n ≤ i64MaxNat)
    (hnd : (db.warnings.map warnKey).Nodup) :
    ∃ (db' : DbState) (b : Bool),
      remove_warning_by_number db guild user n = (db', Except.ok b)
      ∧ (b = true ↔ (1 ≤ n ∧ n ≤ (userWarnings db (guild : Int) (user : Int)).length))
      ∧ (b = false → db' = db)
      ∧ (b = true → ∃ r ∈ userWarnings db (guild : Int) (user : Int),
          ((userWarnings db (guild : Int) (user : Int)).filter
            (fun x => keyLt (warnKey x) (warnKey r))).length = n - 1
          ∧ db'.warnings = db.warnings.filter (fun x => !(x == r))) := by
  have hconv : (do
      let g ← u64ToI64 guild "guild_id out of i64 range"
      let u ← u64ToI64 user "user_id out of i64 range"
      let n' ← u64ToI64 n "warning_number out of i64 range"
      Except.ok (g, u, n') : Except String (Int × Int × Int))
      = Except.ok ((guild : Int), (user : Int), (n : Int)) := by
    simp [u64ToI64, hg, hu, hn, Bind.bind, Except.bind]
  set S := userWarnings db (guild : Int) (user : Int) with hS
  have hndS : (S.map warnKey).Nodup :=
    List.Nodup.sublist (List.Sublist.map warnKey (List.filter_sublist _)) hnd
  have hklen : (S.map warnKey).length = S.length := List.length_map _ _
  set hit : WarningRow → Bool := fun r =>
    r.guild_id == (guild : Int) && r.user_id == (user : Int)
      && ((rankOf (S.map warnKey) (warnKey r) : Int) == (n : Int)) with hhit
  have hmemS : ∀ {r : WarningRow}, r ∈ db.warnings →
      r.guild_id = (guild : Int) → r.user_id = (user : Int) → r ∈ S := by
    intro r hrw h1 h2
    rw [hS]
    unfold userWarnings
    exact List.mem_filter.mpr ⟨hrw, by simp [h1, h2]⟩
  have hSsub : ∀ {r : WarningRow}, r ∈ S →
      r ∈ db.warnings ∧ r.guild_id = (guild : Int) ∧ r.user_id = (user : Int) := by
    intro r hrS
    rw [hS] at hrS
    unfold userWarnings at hrS
    have h1 := List.mem_of_mem_filter hrS
    have h2 := List.of_mem_filter hrS
    simp only [Bool.and_eq_true, beq_iff_eq] at h2
    exact ⟨h1, h2⟩
  have hreduce : remove_warning_by_number db guild user n
      = ({ db with warnings := db.warnings.filter (fun r => !(hit r)) },
          Except.ok (db.warnings.any hit)) := by
    unfold remove_warning_by_number
    rw [hconv]
  refine ⟨_, _, hreduce, ?_, ?_, ?_⟩
  · constructor
    · intro hb
      obtain ⟨r, hrmem, hr⟩ := List.any_eq_true.mp hb
      rw [hhit] at hr
      simp only [Bool.and_eq_true, beq_iff_eq] at hr
      obtain ⟨⟨hg1, hu1⟩, hrank⟩ := hr
      have hrS : r ∈ S := hmemS hrmem hg1 hu1
      have hkmem : warnKey r ∈ S.map warnKey := List.mem_map_of_mem warnKey hrS
      have hrn : rankOf (S.map warnKey) (warnKey r) = n := by exact_mod_cast hrank
      have h1 := rankOf_pos (S.map warnKey) (warnKey r)
      have h2 := rankOf_le_length hkmem
      omega
    · rintro ⟨h1, h2⟩
      obtain ⟨k, hkmem, hkrank⟩ := rankOf_surj hndS h1 (by omega)
      obtain ⟨r, hrS, rfl⟩ := List.mem_map.mp hkmem
      obtain ⟨hrw, hrg, hru⟩ := hSsub hrS
      apply List.any_eq_true.mpr
      refine ⟨r, hrw, ?_⟩
      rw [hhit]
      simp only [Bool.and_eq_true, beq_iff_eq]
      exact ⟨⟨hrg, hru⟩, by rw [hkrank]⟩
  · intro hb
    have hall : ∀ r ∈ db.warnings, (!(hit r)) = true := by
      intro r hr
      have := List.any_eq_false.mp hb r hr
      simp [this]
    have hkeep : db.warnings.filter (fun r => !(hit r)) = db.warnings :=
      List.filter_eq_self.mpr hall
    rw [hkeep]
  · intro hb
    obtain ⟨r, hrmem, hr⟩ := List.any_eq_true.mp hb
    have hr' := hr
    rw [hhit] at hr'
    simp only [Bool.and_eq_true, beq_iff_eq] at hr'
    obtain ⟨⟨hg1, hu1⟩, hrank⟩ := hr'
    have hrS : r ∈ S := hmemS hrmem hg1 hu1
    have hrn : rankOf (S.map warnKey) (warnKey r) = n := by exact_mod_cast hrank
    refine ⟨r, hrS, ?_, ?_⟩
    · have hcnt : ((S.map warnKey).filter (fun j => keyLt j (warnKey r))).length
          = (S.filter (fun x => keyLt (warnKey x) (warnKey r))).length := by
        rw [List.filter_map, List.length_map]
        rfl
      have hrank' : 1 + ((S.map warnKey).filter (fun j => keyLt j (warnKey r))).length = n := hrn
      omega
    · have hpoint : ∀ x ∈ db.warnings, (!(hit x)) = (!(x == r)) := by
        intro x hx
        congr 1
        cases hxr : (x == r) with
        | true =>
          have hxeq : x = r := beq_iff_eq.mp hxr
          subst hxeq
          rw [hhit]
          simp only [Bool.and_eq_true, beq_iff_eq]
          exact ⟨⟨hg1, hu1⟩, by rw [hrn]⟩
        | false =>
          have hne : x ≠ r := by
            intro h
            rw [h] at hxr
            simp at hxr
          cases hhx : hit x with
          | false => rfl
          | true =>
            exfalso
            rw [hhit] at hhx
            simp only [Bool.and_eq_true, beq_iff_eq] at hhx
            obtain ⟨⟨hxg, hxu⟩, hxrank⟩ := hhx
            have hxS : x ∈ S := hmemS hx hxg hxu
            have hxn : rankOf (S.map warnKey) (warnKey x) = n := by omega
            have hkeq : warnKey x = warnKey r :=
              rankOf_injOn (List.mem_map_of_mem warnKey hxS)
                (List.mem_map_of_mem warnKey hrS) (hxn.trans hrn.symm)
            exact hne (List.inj_on_of_nodup_map hndS hxS hrS hkeq)
      show db.warnings.filter (fun x => !(hit x)) = _
      exact List.filter_congr hpoint

/-- C9: `remove_warning_by_number(guild, user, n)` ranks the pair's
warnings by ascending `(warned_at, id)` inside the deleting step itself,
deletes exactly the row with rank `n` (1-indexed: the row with exactly
`n - 1` smaller-keyed warnings of that pair), and returns `true` exactly
when such an n-th warning exists — otherwise nothing is deleted and it
returns `false`.  After a deletion the remaining warnings re-rank: with
warnings at times t1 < t2 < t3, deleting number 2 removes t2, and deleting
number 2 again removes what was t3. -/
theorem remove_warning_by_number_spec :
    (∀ (db : DbState) (guild user n : Nat),
      guild ≤ i64MaxNat → user ≤ i64MaxNat → n ≤ i64MaxNat →
      (db.warnings.map warnKey).Nodup →
      ∃ (db' : DbState) (b : Bool),
        remove_warning_by_number db guild user n = (db', Except.ok b)
        ∧ (b = true ↔ (1 ≤ n ∧ n ≤ (userWarnings db (guild : Int) (user : Int)).length))
        ∧ (b = false → db' = db)
        ∧ (b = true → ∃ r ∈ userWarnings db (guild : Int) (user : Int),
            ((userWarnings db (guild : Int) (user : Int)).filter
              (fun x => keyLt (warnKey x) (warnKey r))).length = n - 1
            ∧ db'.warnings = db.warnings.filter (fun x => !(x == r))))
    ∧ ((remove_warning_by_number scenarioDb 1 2 2).2 = Except.ok true
      ∧ (remove_warning_by_number scenarioDb 1 2 2).1.warnings.map
          (fun r => r.warned_at) = [999000, 999200]
      ∧ (remove_warning_by_number
          (remove_warning_by_number scenarioDb 1 2 2).1 1 2 2).2 = Except.ok true
      ∧ (remove_warning_by_number
          (remove_warning_by_number scenarioDb 1 2 2).1 1 2 2).1.warnings.map
          (fun r => r.warned_at) = [999000]) :=
  ⟨remove_warning_main, rfl, by decide, rfl, by decide⟩

/-- Witness for C9: the quantified part of the deletion theorem applied to
the concrete scenario state. -/
theorem remove_warning_by_number_spec_witness :
    ∃ (db' : DbState) (b : Bool),
      remove_warning_by_number scenarioDb 1 2 2 = (db', Except.ok b)
      ∧ (b = true ↔ (1 ≤ 2 ∧ 2 ≤ (userWarnings scenarioDb (1 : Int) (2 : Int)).length))
      ∧ (b = false → db' = scenarioDb)
      ∧ (b = true → ∃ r ∈ userWarnings scenarioDb (1 : Int) (2 : Int),
          ((userWarnings scenarioDb (1 : Int) (2 : Int)).filter
            (fun x => keyLt (warnKey x) (warnKey r))).length = 2 - 1
          ∧ db'.warnings = scenarioDb.warnings.filter (fun x => !(x == r))) :=
  remove_warning_by_number_spec.1 scenarioDb 1 2 2 (by decide) (by decide) (by decide)
    (by decide)

/-! ## C5 and C6: escalation gating and failure semantics -/

theorem check_and_escalate_disabled_none (db : DbState) (guild user bot clock : Nat)
    (hg : guild ≤ i64MaxNat)
    (hfind : db.escalation_config.find?
      (fun c => c.guild_id == (guild : Int) && c.enabled) = none) :
    check_and_escalate db noFaults guild user bot clock = (db, none) := by
  have h1 : get_escalation_if_enabled db guild = Except.ok none := by
    simp [get_escalation_if_enabled, u64ToI64, hg, Bind.bind, Except.bind, hfind]
  unfold check_and_escalate
  rw [h1]
  rfl

theorem check_and_escalate_below_threshold (db : DbState) (guild user bot clock : Nat) (cfg : EscalationConfig)
    (hg : guild ≤ i64MaxNat) (hu : user ≤ i64MaxNat)
    (hfind : db.escalation_config.find?
      (fun c => c.guild_id == (guild : Int) && c.enabled) = some cfg)
    (hcount : ((db.warnings.filter (fun w =>
        w.guild_id == (guild : Int) && w.user_id == (user : Int)
          && decide (asI64 clock - cfg.warn_window_seconds ≤ w.warned_at))).length : Int)
      < cfg.warn_threshold) :
    check_and_escalate db noFaults guild user bot clock = (db, none) := by
  have h1 : get_escalation_if_enabled db guild = Except.ok (some cfg) := by
    simp [get_escalation_if_enabled, u64ToI64, hg, Bind.bind, Except.bind, hfind]
  have h2 : count_warnings_in_window db guild user cfg.warn_window_seconds clock
      = Except.ok ((db.warnings.filter (fun w =>
          w.guild_id == (guild : Int) && w.user_id == (user : Int)
            && decide (asI64 clock - cfg.warn_window_seconds ≤ w.warned_at))).length : Int) := by
    simp [count_warnings_in_window, u64ToI64, hg, hu, Bind.bind, Except.bind]
  unfold check_and_escalate
  simp only [h1, h2, noFaults, Bool.false_eq_true, if_false]
  rw [if_pos hcount]

theorem check_and_escalate_threshold_triggers (db : DbState) (guild user bot clock : Nat) (cfg : EscalationConfig)
    (hg : guild ≤ i64MaxNat) (hu : user ≤ i64MaxNat)
    (hfind : db.escalation_config.find?
      (fun c => c.guild_id == (guild : Int) && c.enabled) = some cfg)
    (hcount : ((db.warnings.filter (fun w =>
        w.guild_id == (guild : Int) && w.user_id == (user : Int)
          && decide (asI64 clock - cfg.warn_window_seconds ≤ w.warned_at))).length : Int)
      = cfg.warn_threshold) :
    ∃ tcount : Int,
      count_timeouts_in_window db guild user cfg.timeout_window_seconds clock
        = Except.ok tcount
      ∧ (check_and_escalate db noFaults guild user bot clock).2
        = some { timed_out := true,
                 timeout_seconds := some (escalation_timeout_seconds tcount),
                 tier := some tcount } := by
  have h1 : get_escalation_if_enabled db guild = Except.ok (some cfg) := by
    simp [get_escalation_if_enabled, u64ToI64, hg, Bind.bind, Except.bind, hfind]
  have h2 : count_warnings_in_window db guild user cfg.warn_window_seconds clock
      = Except.ok ((db.warnings.filter (fun w =>
          w.guild_id == (guild : Int) && w.user_id == (user : Int)
            && decide (asI64 clock - cfg.warn_window_seconds ≤ w.warned_at))).length : Int) := by
    simp [count_warnings_in_window, u64ToI64, hg, hu, Bind.bind, Except.bind]
  have h3 : count_timeouts_in_window db guild user cfg.timeout_window_seconds clock
      = Except.ok ((db.moderation_cases.filter (fun c =>
          c.guild_id == (guild : Int) && c.target_user_id == some (user : Int)
            && decide (asI64 clock - cfg.timeout_window_seconds ≤ c.created_at)
            && (c.action == "timeout" || c.action == "auto_timeout"
                || c.action == "word_filter_timeout"))).length : Int) := by
    simp [count_timeouts_in_window, u64ToI64, hg, hu, Bind.bind, Except.bind]
  refine ⟨_, h3, ?_⟩
  have hnotlt : ¬(((db.warnings.filter (fun w =>
      w.guild_id == (guild : Int) && w.user_id == (user : Int)
        && decide (asI64 clock - cfg.warn_window_seconds ≤ w.warned_at))).length : Int)
      < cfg.warn_threshold) := by omega
  unfold check_and_escalate
  simp only [h1, h2, h3, noFaults, Bool.false_eq_true, if_false]
  rw [if_neg hnotlt]

theorem check_and_escalate_read_error_none (db : DbState) (f : Faults) (guild user bot clock : Nat)
    (hf : f.fail_config = true ∨ f.fail_warn_count = true ∨ f.fail_timeout_count = true) :
    check_and_escalate db f guild user bot clock = (db, none) := by
  unfold check_and_escalate
  by_cases h1 : f.fail_config = true
  · rw [if_pos h1]
  · have h1f : f.fail_config = false := by simpa using h1
    cases hcfg : get_escalation_if_enabled db guild with
    | error e => simp [h1f, hcfg]
    | ok v =>
      cases v with
      | none => simp [h1f, hcfg]
      | some cfg =>
        by_cases h2 : f.fail_warn_count = true
        · simp [h1f, hcfg, h2]
        · have h2f : f.fail_warn_count = false := by simpa using h2
          have h3 : f.fail_timeout_count = true := by tauto
          cases hw : count_warnings_in_window db guild user cfg.warn_window_seconds clock with
          | error e => simp [h1f, hcfg, h2f, hw]
          | ok wc =>
            by_cases h4 : wc < cfg.warn_threshold
            · simp [h1f, hcfg, h2f, hw, h4]
            · simp [h1f, hcfg, h2f, hw, h4, h3]

theorem check_and_escalate_create_error_result (db : DbState) (guild user bot clock : Nat) (cfg : EscalationConfig)
    (wc tc : Int)
    (hcfg : get_escalation_if_enabled db guild = Except.ok (some cfg))
    (hw : count_warnings_in_window db guild user cfg.warn_window_seconds clock
      = Except.ok wc)
    (hwt : ¬(wc < cfg.warn_threshold))
    (ht : count_timeouts_in_window db guild user cfg.timeout_window_seconds clock
      = Except.ok tc) :
    check_and_escalate db
        { fail_config := false, fail_warn_count := false,
          fail_timeout_count := false, fail_create := true } guild user bot clock
      = (db, some { timed_out := true,
                    timeout_seconds := some (escalation_timeout_seconds tc),
                    tier := some tc }) := by
  unfold check_and_escalate
  simp only [hcfg, hw, ht, Bool.false_eq_true, if_false, if_true]
  rw [if_neg hwt]

/-- C6 counterexample: a database error during `check_and_escalate` does
not always suppress the result — with a storage failure injected into the
case-creation step of the concrete scenario, the check still returns
`Some(EscalationResult)`, refuting "every database read/write error ...
produces no EscalationResult for the caller". -/
theorem check_and_escalate_create_error_counterexample :
    check_and_escalate scenarioDb
        { fail_config := false, fail_warn_count := false,
          fail_timeout_count := false, fail_create := true } 1 2 99 1000000
      = (scenarioDb,
          some { timed_out := true, timeout_seconds := some 300, tier := some 0 }) := by
  decide

/-- C5: with no storage faults, `check_and_escalate` returns no action (and
no error) whenever the guild has no enabled `EscalationConfig` row, and
whenever the user's count of warnings with
`warned_at >= now - warn_window_seconds` is strictly below
`warn_threshold`; with an enabled config and the windowed count exactly
equal to the threshold it triggers, reporting the timeout count as the tier
(warnings outside the window never enter the count). -/
theorem check_and_escalate_gating :
    (∀ (db : DbState) (guild user bot clock : Nat),
      guild ≤ i64MaxNat →
      db.escalation_config.find?
        (fun c => c.guild_id == (guild : Int) && c.enabled) = none →
      check_and_escalate db noFaults guild user bot clock = (db, none))
    ∧ (∀ (db : DbState) (guild user bot clock : Nat) (cfg : EscalationConfig),
        guild ≤ i64MaxNat → user ≤ i64MaxNat →
        db.escalation_config.find?
          (fun c => c.guild_id == (guild : Int) && c.enabled) = some cfg →
        ((db.warnings.filter (fun w =>
            w.guild_id == (guild : Int) && w.user_id == (user : Int)
              && decide (asI64 clock - cfg.warn_window_seconds ≤ w.warned_at))).length : Int)
          < cfg.warn_threshold →
        check_and_escalate db noFaults guild user bot clock = (db, none))
    ∧ (∀ (db : DbState) (guild user bot clock : Nat) (cfg : EscalationConfig),
        guild ≤ i64MaxNat → user ≤ i64MaxNat →
        db.escalation_config.find?
          (fun c => c.guild_id == (guild : Int) && c.enabled) = some cfg →
        ((db.warnings.filter (fun w =>
            w.guild_id == (guild : Int) && w.user_id == (user : Int)
              && decide (asI64 clock - cfg.warn_window_seconds ≤ w.warned_at))).length : Int)
          = cfg.warn_threshold →
        ∃ tcount : Int,
          count_timeouts_in_window db guild user cfg.timeout_window_seconds clock
            = Except.ok tcount
          ∧ (check_and_escalate db noFaults guild user bot clock).2
            = some { timed_out := true,
                     timeout_seconds := some (escalation_timeout_seconds tcount),
                     tier := some tcount }) :=
  ⟨check_and_escalate_disabled_none, check_and_escalate_below_threshold,
    check_and_escalate_threshold_triggers⟩

/-- Witness for C5: no enabled config (empty database), a user below the
threshold, and a user exactly at the threshold, all on concrete states. -/
theorem check_and_escalate_gating_witness :
    check_and_escalate emptyDb noFaults 1 2 3 100 = (emptyDb, none)
    ∧ check_and_escalate scenarioDb noFaults 1 7 99 1000000 = (scenarioDb, none)
    ∧ ∃ tcount : Int,
        count_timeouts_in_window scenarioDb 1 2 604800 1000000 = Except.ok tcount
        ∧ (check_and_escalate scenarioDb noFaults 1 2 99 1000000).2
          = some { timed_out := true,
                   timeout_seconds := some (escalation_timeout_seconds tcount),
                   tier := some tcount } :=
  ⟨check_and_escalate_gating.1 emptyDb 1 2 3 100 (by decide) (by decide),
    check_and_escalate_gating.2.1 scenarioDb 1 7 99 1000000
      { guild_id := 1, enabled := true, warn_threshold := 3,
        warn_window_seconds := 86400, timeout_window_seconds := 604800 }
      (by decide) (by decide) (by decide) (by decide),
    check_and_escalate_gating.2.2 scenarioDb 1 2 99 1000000
      { guild_id := 1, enabled := true, warn_threshold := 3,
        warn_window_seconds := 86400, timeout_window_seconds := 604800 }
      (by decide) (by decide) (by decide) (by decide)⟩

/-- C6 (amended): a database error in the config read, the warning count,
or the timeout count aborts `check_and_escalate` early with no
`EscalationResult` and an unchanged state; but a database error while
creating the `auto_timeout` case is only logged — the check still returns
`Some(EscalationResult)` with the computed tier and duration (the platform
timeout has already been applied at that point), with the state unchanged
by the rolled-back transaction. -/
theorem check_and_escalate_failure_semantics :
    (∀ (db : DbState) (f : Faults) (guild user bot clock : Nat),
      f.fail_config = true ∨ f.fail_warn_count = true ∨ f.fail_timeout_count = true →
      check_and_escalate db f guild user bot clock = (db, none))
    ∧ (∀ (db : DbState) (guild user bot clock : Nat) (cfg : EscalationConfig)
        (wc tc : Int),
        get_escalation_if_enabled db guild = Except.ok (some cfg) →
        count_warnings_in_window db guild user cfg.warn_window_seconds clock
          = Except.ok wc →
        ¬(wc < cfg.warn_threshold) →
        count_timeouts_in_window db guild user cfg.timeout_window_seconds clock
          = Except.ok tc →
        check_and_escalate db
            { fail_config := false, fail_warn_count := false,
              fail_timeout_count := false, fail_create := true } guild user bot clock
          = (db, some { timed_out := true,
                        timeout_seconds := some (escalation_timeout_seconds tc),
                        tier := some tc })) :=
  ⟨check_and_escalate_read_error_none, check_and_escalate_create_error_result⟩

/-- Witness for C6: a config-read fault on the empty database, and a
case-creation fault on the concrete scenario state. -/
theorem check_and_escalate_failure_semantics_witness :
    check_and_escalate emptyDb
        { fail_config := true, fail_warn_count := false,
          fail_timeout_count := false, fail_create := false } 1 2 3 100
      = (emptyDb, none)
    ∧ check_and_escalate scenarioDb
        { fail_config := false, fail_warn_count := false,
          fail_timeout_count := false, fail_create := true } 1 2 99 1000000
      = (scenarioDb, some { timed_out := true,
                            timeout_seconds := some (escalation_timeout_seconds 0),
                            tier := some 0 }) :=
  ⟨check_and_escalate_failure_semantics.1 emptyDb
      { fail_config := true, fail_warn_count := false,
        fail_timeout_count := false, fail_create := false } 1 2 3 100 (Or.inl rfl),
    check_and_escalate_failure_semantics.2 scenarioDb 1 2 99 1000000
      { guild_id := 1, enabled := true, warn_threshold := 3,
        warn_window_seconds := 86400, timeout_window_seconds := 604800 } 3 0
      rfl rfl (by decide) rfl⟩

/-! ## C10: u64-to-i64 conversion guards -/

theorem except_bind_ok {α β : Type} {a : Except String α} {f : α → Except String β}
    {v : β} (h : (a >>= f) = Except.ok v) :
    ∃ x, a = Except.ok x ∧ f x = Except.ok v := by
  cases a with
  | error e => simp [Bind.bind, Except.bind] at h
  | ok x => exact ⟨x, rfl, by simpa [Bind.bind, Except.bind] using h⟩

theorem u64ToI64_ok_bound {v : Nat} {msg : String} {x : Int}
    (h : u64ToI64 v msg = Except.ok x) : v ≤ i64MaxNat := by
  unfold u64ToI64 at h
  by_cases hv : v ≤ i64MaxNat
  · exact hv
  · rw [if_neg hv] at h
    exact absurd h (by simp)

theorem optU64ToI64_ok_bound {v : Option Nat} {msg : String} {x : Option Int}
    (h : optU64ToI64 v msg = Except.ok x) : ∀ t ∈ v, t ≤ i64MaxNat := by
  intro t ht
  cases v with
  | none => exact absurd ht (by simp)
  | some w =>
    have htw : w = t := by simpa using ht
    subst htw
    have hmap : Except.map Option.some (u64ToI64 w msg) = Except.ok x := h
    cases hw : u64ToI64 w msg with
    | error e => rw [hw] at hmap; exact absurd hmap (by simp [Except.map])
    | ok y => exact u64ToI64_ok_bound hw

theorem create_case_guard (db : DbState) (nc : NewCase) (clock : Nat)
    (hbad : i64MaxNat < nc.guild_id
      ∨ (∃ t ∈ nc.target_user_id, i64MaxNat < t)
      ∨ i64MaxNat < nc.moderator_user_id
      ∨ (∃ d ∈ nc.duration_seconds, i64MaxNat < d)) :
    ∃ e, create_case db nc clock = (db, Except.error e) := by
  cases hc : caseInputs nc clock with
  | error e =>
    refine ⟨e, ?_⟩
    unfold create_case
    rw [hc]
  | ok v =>
    exfalso
    unfold caseInputs at hc
    obtain ⟨g, hg, hc⟩ := except_bind_ok hc
    obtain ⟨t, ht, hc⟩ := except_bind_ok hc
    obtain ⟨m, hm, hc⟩ := except_bind_ok hc
    obtain ⟨d, hd, hc⟩ := except_bind_ok hc
    have h1 := u64ToI64_ok_bound hg
    have h2 := optU64ToI64_ok_bound ht
    have h3 := u64ToI64_ok_bound hm
    have h4 := optU64ToI64_ok_bound hd
    rcases hbad with h | ⟨x, hx, hxb⟩ | h | ⟨x, hx, hxb⟩
    · omega
    · have := h2 x hx; omega
    · omega
    · have := h4 x hx; omega

theorem record_warning_guard (db : DbState) (guild user moderator : Nat) (reason : String)
    (clock : Nat)
    (hbad : i64MaxNat < guild ∨ i64MaxNat < user ∨ i64MaxNat < moderator) :
    ∃ e, record_warning db guild user moderator reason clock = (db, Except.error e) := by
  cases hc : (do
      let g ← u64ToI64 guild "guild_id out of i64 range"
      let u ← u64ToI64 user "user_id out of i64 range"
      let m ← u64ToI64 moderator "moderator_id out of i64 range"
      let w ← u64ToI64 clock "warned_at out of i64 range"
      Except.ok (g, u, m, w) : Except String (Int × Int × Int × Int)) with
  | error e =>
    refine ⟨e, ?_⟩
    unfold record_warning
    rw [hc]
  | ok v =>
    exfalso
    obtain ⟨g, hg, hc⟩ := except_bind_ok hc
    obtain ⟨u, hu, hc⟩ := except_bind_ok hc
    obtain ⟨m, hm, hc⟩ := except_bind_ok hc
    have h1 := u64ToI64_ok_bound hg
    have h2 := u64ToI64_ok_bound hu
    have h3 := u64ToI64_ok_bound hm
    rcases hbad with h | h | h <;> omega

theorem remove_warning_guard (db : DbState) (guild user n : Nat)
    (hbad : i64MaxNat < guild ∨ i64MaxNat < user ∨ i64MaxNat < n) :
    ∃ e, remove_warning_by_number db guild user n = (db, Except.error e) := by
  cases hc : (do
      let g ← u64ToI64 guild "guild_id out of i64 range"
      let u ← u64ToI64 user "user_id out of i64 range"
      let n' ← u64ToI64 n "warning_number out of i64 range"
      Except.ok (g, u, n') : Except String (Int × Int × Int)) with
  | error e =>
    refine ⟨e, ?_⟩
    unfold remove_warning_by_number
    rw [hc]
  | ok v =>
    exfalso
    obtain ⟨g, hg, hc⟩ := except_bind_ok hc
    obtain ⟨u, hu, hc⟩ := except_bind_ok hc
    obtain ⟨n', hn, hc⟩ := except_bind_ok hc
    have h1 := u64ToI64_ok_bound hg
    have h2 := u64ToI64_ok_bound hu
    have h3 := u64ToI64_ok_bound hn
    rcases hbad with h | h | h <;> omega

theorem clear_warnings_guard (db : DbState) (guild user : Nat)
    (hbad : i64MaxNat < guild ∨ i64MaxNat < user) :
    ∃ e, clear_warnings db guild user = (db, Except.error e) := by
  cases hc : (do
      let g ← u64ToI64 guild "guild_id out of i64 range"
      let u ← u64ToI64 user "user_id out of i64 range"
      Except.ok (g, u) : Except String (Int × Int)) with
  | error e =>
    refine ⟨e, ?_⟩
    unfold clear_warnings
    rw [hc]
  | ok v =>
    exfalso
    obtain ⟨g, hg, hc⟩ := except_bind_ok hc
    obtain ⟨u, hu, hc⟩ := except_bind_ok hc
    have h1 := u64ToI64_ok_bound hg
    have h2 := u64ToI64_ok_bound hu
    rcases hbad with h | h <;> omega

theorem warnings_since_guard (db : DbState) (guild user since : Nat)
    (hbad : i64MaxNat < guild ∨ i64MaxNat < user ∨ i64MaxNat < since) :
    ∃ e, warnings_since db guild user since = Except.error e := by
  cases hc : warnings_since db guild user since with
  | error e => exact ⟨e, rfl⟩
  | ok v =>
    exfalso
    unfold warnings_since at hc
    obtain ⟨g, hg, hc⟩ := except_bind_ok hc
    obtain ⟨u, hu, hc⟩ := except_bind_ok hc
    obtain ⟨s, hs, hc⟩ := except_bind_ok hc
    have h1 := u64ToI64_ok_bound hg
    have h2 := u64ToI64_ok_bound hu
    have h3 := u64ToI64_ok_bound hs
    rcases hbad with h | h | h <;> omega

theorem get_case_by_label_guard (db : DbState) (guild : Nat) (code : String) (n : Nat)
    (hbad : i64MaxNat < guild ∨ i64MaxNat < n) :
    ∃ e, get_case_by_label db guild code n = Except.error e := by
  cases hc : get_case_by_label db guild code n with
  | error e => exact ⟨e, rfl⟩
  | ok v =>
    exfalso
    unfold get_case_by_label at hc
    obtain ⟨g, hg, hc⟩ := except_bind_ok hc
    obtain ⟨n', hn, hc⟩ := except_bind_ok hc
    have h1 := u64ToI64_ok_bound hg
    have h2 := u64ToI64_ok_bound hn
    rcases hbad with h | h <;> omega

theorem get_case_events_guard (db : DbState) (guild : Nat) (code : String) (n : Nat)
    (hbad : i64MaxNat < guild ∨ i64MaxNat < n) :
    ∃ e, get_case_events db guild code n = Except.error e := by
  cases hc : get_case_events db guild code n with
  | error e => exact ⟨e, rfl⟩
  | ok v =>
    exfalso
    unfold get_case_events at hc
    obtain ⟨g, hg, hc⟩ := except_bind_ok hc
    obtain ⟨n', hn, hc⟩ := except_bind_ok hc
    have h1 := u64ToI64_ok_bound hg
    have h2 := u64ToI64_ok_bound hn
    rcases hbad with h | h <;> omega

theorem update_case_reason_guard (db : DbState) (guild : Nat) (code : String) (n actor : Nat)
    (new_reason : String) (clock : Nat)
    (hbad : i64MaxNat < guild ∨ i64MaxNat < n ∨ i64MaxNat < actor) :
    ∃ e, update_case_reason db guild code n actor new_reason clock
      = (db, Except.error e) := by
  cases hc : (do
      let g ← u64ToI64 guild "guild_id out of i64 range"
      let n ← u64ToI64 n "action_case_number out of i64 range"
      let a ← u64ToI64 actor "actor_user_id out of i64 range"
      let now ← u64ToI64 clock "now out of i64 range"
      Except.ok (g, n, a, now) : Except String (Int × Int × Int × Int)) with
  | error e =>
    refine ⟨e, ?_⟩
    unfold update_case_reason
    rw [hc]
  | ok v =>
    exfalso
    obtain ⟨g, hg, hc⟩ := except_bind_ok hc
    obtain ⟨n', hn, hc⟩ := except_bind_ok hc
    obtain ⟨a, ha, hc⟩ := except_bind_ok hc
    have h1 := u64ToI64_ok_bound hg
    have h2 := u64ToI64_ok_bound hn
    have h3 := u64ToI64_ok_bound ha
    rcases hbad with h | h | h <;> omega

theorem add_case_note_guard (db : DbState) (guild : Nat) (code : String) (n actor : Nat)
    (note : String) (clock : Nat)
    (hbad : i64MaxNat < guild ∨ i64MaxNat < n ∨ i64MaxNat < actor) :
    ∃ e, add_case_note db guild code n actor note clock = (db, Except.error e) := by
  cases hc : (do
      let g ← u64ToI64 guild "guild_id out of i64 range"
      let n ← u64ToI64 n "action_case_number out of i64 range"
      let a ← u64ToI64 actor "actor_user_id out of i64 range"
      let now ← u64ToI64 clock "now out of i64 range"
      Except.ok (g, n, a, now) : Except String (Int × Int × Int × Int)) with
  | error e =>
    refine ⟨e, ?_⟩
    unfold add_case_note
    rw [hc]
  | ok v =>
    exfalso
    obtain ⟨g, hg, hc⟩ := except_bind_ok hc
    obtain ⟨n', hn, hc⟩ := except_bind_ok hc
    obtain ⟨a, ha, hc⟩ := except_bind_ok hc
    have h1 := u64ToI64_ok_bound hg
    have h2 := u64ToI64_ok_bound hn
    have h3 := u64ToI64_ok_bound ha
    rcases hbad with h | h | h <;> omega

theorem list_recent_cases_guard (db : DbState) (guild : Nat) (filters : CaseFilters)
    (hbad : i64MaxNat < guild
      ∨ (∃ t ∈ filters.target_user_id, i64MaxNat < t)
      ∨ (∃ m ∈ filters.moderator_user_id, i64MaxNat < m)) :
    ∃ e, list_recent_cases db guild filters = Except.error e := by
  cases hc : list_recent_cases db guild filters with
  | error e => exact ⟨e, rfl⟩
  | ok v =>
    exfalso
    unfold list_recent_cases at hc
    obtain ⟨g, hg, hc⟩ := except_bind_ok hc
    obtain ⟨t, ht, hc⟩ := except_bind_ok hc
    obtain ⟨m, hm, hc⟩ := except_bind_ok hc
    have h1 := u64ToI64_ok_bound hg
    have h2 := optU64ToI64_ok_bound ht
    have h3 := optU64ToI64_ok_bound hm
    rcases hbad with h | ⟨x, hx, hxb⟩ | ⟨x, hx, hxb⟩
    · omega
    · have := h2 x hx; omega
    · have := h3 x hx; omega

/-- C10: every public ledger and warning-store operation guards its
`u64`/`usize` to `i64` conversions: whenever a supplied identifier or
quantity (`guild_id`, `target_user_id`, `moderator_user_id`,
`duration_seconds`, `action_case_number`, `warning_number`, ...) exceeds
`i64::MAX`, the operation returns an error before issuing any store write;
the state is unchanged and no value is wrapped or truncated. -/
theorem conversion_guards :
    (∀ (db : DbState) (nc : NewCase) (clock : Nat),
      i64MaxNat < nc.guild_id
        ∨ (∃ t ∈ nc.target_user_id, i64MaxNat < t)
        ∨ i64MaxNat < nc.moderator_user_id
        ∨ (∃ d ∈ nc.duration_seconds, i64MaxNat < d) →
      ∃ e, create_case db nc clock = (db, Except.error e))
    ∧ (∀ (db : DbState) (guild user moderator : Nat) (reason : String) (clock : Nat),
        i64MaxNat < guild ∨ i64MaxNat < user ∨ i64MaxNat < moderator →
        ∃ e, record_warning db guild user moderator reason clock = (db, Except.error e))
    ∧ (∀ (db : DbState) (guild user n : Nat),
        i64MaxNat < guild ∨ i64MaxNat < user ∨ i64MaxNat < n →
        ∃ e, remove_warning_by_number db guild user n = (db, Except.error e))
    ∧ (∀ (db : DbState) (guild user : Nat),
        i64MaxNat < guild ∨ i64MaxNat < user →
        ∃ e, clear_warnings db guild user = (db, Except.error e))
    ∧ (∀ (db : DbState) (guild user since : Nat),
        i64MaxNat < guild ∨ i64MaxNat < user ∨ i64MaxNat < since →
        ∃ e, warnings_since db guild user since = Except.error e)
    ∧ (∀ (db : DbState) (guild : Nat) (code : String) (n : Nat),
        i64MaxNat < guild ∨ i64MaxNat < n →
        ∃ e, get_case_by_label db guild code n = Except.error e)
    ∧ (∀ (db : DbState) (guild : Nat) (code : String) (n : Nat),
        i64MaxNat < guild ∨ i64MaxNat < n →
        ∃ e, get_case_events db guild code n = Except.error e)
    ∧ (∀ (db : DbState) (guild : Nat) (code : String) (n actor : Nat)
        (new_reason : String) (clock : Nat),
        i64MaxNat < guild ∨ i64MaxNat < n ∨ i64MaxNat < actor →
        ∃ e, update_case_reason db guild code n actor new_reason clock
          = (db, Except.error e))
    ∧ (∀ (db : DbState) (guild : Nat) (code : String) (n actor : Nat)
        (note : String) (clock : Nat),
        i64MaxNat < guild ∨ i64MaxNat < n ∨ i64MaxNat < actor →
        ∃ e, add_case_note db guild code n actor note clock = (db, Except.error e))
    ∧ (∀ (db : DbState) (guild : Nat) (filters : CaseFilters),
        i64MaxNat < guild
          ∨ (∃ t ∈ filters.target_user_id, i64MaxNat < t)
          ∨ (∃ m ∈ filters.moderator_user_id, i64MaxNat < m) →
        ∃ e, list_recent_cases db guild filters = Except.error e) :=
  ⟨create_case_guard, record_warning_guard, remove_warning_guard,
    clear_warnings_guard, warnings_since_guard, get_case_by_label_guard,
    get_case_events_guard, update_case_reason_guard, add_case_note_guard,
    list_recent_cases_guard⟩

/-- Witness for C10: `create_case` and `record_warning` refused at a
`guild_id` of 2^64 - 1 on the empty database. -/
theorem conversion_guards_witness :
    (∃ e, create_case emptyDb
        { guild_id := 18446744073709551615, target_user_id := none,
          moderator_user_id := 3, action := "warn", reason := "r",
          status := "active", duration_seconds := none } 100
      = (emptyDb, Except.error e))
    ∧ (∃ e, record_warning emptyDb 18446744073709551615 2 3 "r" 100
        = (emptyDb, Except.error e))
    ∧ (∃ e, remove_warning_by_number emptyDb 1 2 18446744073709551615
        = (emptyDb, Except.error e)) :=
  ⟨conversion_guards.1 emptyDb
      { guild_id := 18446744073709551615, target_user_id := none,
        moderator_user_id := 3, action := "warn", reason := "r",
        status := "active", duration_seconds := none } 100 (Or.inl (by decide)),
    conversion_guards.2.1 emptyDb 18446744073709551615 2 3 "r" 100
      (Or.inl (by decide)),
    conversion_guards.2.2.1 emptyDb 1 2 18446744073709551615
      (Or.inr (Or.inr (by decide)))⟩

/-! ## C2 and C3: transactional case numbering and atomicity -/

theorem sqlMaxD0_nonneg {l : List Int} (h : ∀ x ∈ l, 0 ≤ x) : 0 ≤ sqlMaxD0 l := by
  unfold sqlMaxD0
  cases hmax : l.maximum with
  | bot => simp [WithBot.unbot']
  | coe M =>
    have hM : M ∈ l := List.maximum_mem hmax
    simpa [WithBot.unbot'] using h M hM

theorem mem_le_sqlMaxD0 {l : List Int} {x : Int} (hx : x ∈ l) : x ≤ sqlMaxD0 l := by
  unfold sqlMaxD0
  cases hmax : l.maximum with
  | bot =>
    exact absurd hmax (List.maximum_ne_bot_of_ne_nil (List.ne_nil_of_mem hx))
  | coe M =>
    simpa [WithBot.unbot'] using List.le_maximum_of_mem hx hmax

theorem intRange1_succ (n : Nat) :
    intRange1 (n + 1) = intRange1 n ++ [Int.ofNat (n + 1)] := by
  unfold intRange1
  rw [List.range'_concat]
  rw [show 1 + 1 * n = n + 1 from by omega]
  rw [List.map_append]
  rfl

theorem mem_intRange1 {n : Nat} {x : Int} :
    x ∈ intRange1 n ↔ ∃ m : Nat, 1 ≤ m ∧ m ≤ n ∧ x = Int.ofNat m := by
  unfold intRange1
  simp only [List.mem_map, List.mem_range'_1]
  constructor
  · rintro ⟨m, ⟨h1, h2⟩, rfl⟩
    exact ⟨m, h1, by omega, rfl⟩
  · rintro ⟨m, h1, h2, rfl⟩
    exact ⟨m, ⟨h1, by omega⟩, rfl⟩

theorem sqlMaxD0_of_perm_intRange1 {l : List Int} {n : Nat}
    (h : l.Perm (intRange1 n)) : sqlMaxD0 l = (n : Int) := by
  cases n with
  | zero =>
    have hnil : l = [] := List.Perm.eq_nil (by simpa [intRange1] using h)
    simp [hnil, sqlMaxD0, List.maximum_nil, WithBot.unbot']
  | succ k =>
    have hmem : Int.ofNat (k + 1) ∈ l := by
      rw [h.mem_iff, mem_intRange1]
      exact ⟨k + 1, by omega, by omega, rfl⟩
    have hbound : ∀ a ∈ l, a ≤ Int.ofNat (k + 1) := by
      intro a ha
      rw [h.mem_iff, mem_intRange1] at ha
      obtain ⟨m, h1, h2, rfl⟩ := ha
      exact Int.ofNat_le.mpr (by omega)
    have hmax : l.maximum = (Int.ofNat (k + 1) : Int) :=
      List.maximum_eq_coe_iff.mpr ⟨hmem, hbound⟩
    rw [sqlMaxD0, hmax]
    rfl



theorem create_case_inv_step (db : DbState) (hinv : CaseNumberingInv db)
    (nc : NewCase) (clock : Nat) :
    CaseNumberingInv (create_case db nc clock).1 := by
  obtain ⟨hperm, hsort⟩ := hinv
  cases hc : caseInputs nc clock with
  | error e =>
    have hdb : (create_case db nc clock).1 = db := by
      unfold create_case
      rw [hc]
    rw [hdb]
    exact ⟨hperm, hsort⟩
  | ok v =>
    obtain ⟨g0, t0, m0, d0, now0⟩ := v
    have hmc : (create_case db nc clock).1.mod_cases = db.mod_cases ++
        [{ id := db.next_case_id, guild_id := g0,
           case_number := maxCaseNumber db g0 + 1,
           case_code := action_code nc.action,
           action_case_number := maxActionCaseNumber db g0 (action_code nc.action) + 1,
           target_user_id := t0, moderator_user_id := m0, action := nc.action,
           reason := nc.reason, status := nc.status, duration_seconds := d0,
           created_at := now0, updated_at := now0 }] := by
      unfold create_case
      rw [hc]
    constructor
    · intro g c
      rw [hmc, List.filter_append]
      by_cases hmatch : (g0 == g && action_code nc.action == c) = true
      · simp only [Bool.and_eq_true, beq_iff_eq] at hmatch
        obtain ⟨hg, hcc⟩ := hmatch
        subst hg
        subst hcc
        have hone : List.filter (fun r => r.guild_id == g0 && r.case_code == action_code nc.action)
            [({ id := db.next_case_id, guild_id := g0,
                case_number := maxCaseNumber db g0 + 1,
                case_code := action_code nc.action,
                action_case_number := maxActionCaseNumber db g0 (action_code nc.action) + 1,
                target_user_id := t0, moderator_user_id := m0, action := nc.action,
                reason := nc.reason, status := nc.status, duration_seconds := d0,
                created_at := now0, updated_at := now0 } : CaseRow)]
            = [{ id := db.next_case_id, guild_id := g0,
                 case_number := maxCaseNumber db g0 + 1,
                 case_code := action_code nc.action,
                 action_case_number := maxActionCaseNumber db g0 (action_code nc.action) + 1,
                 target_user_id := t0, moderator_user_id := m0, action := nc.action,
                 reason := nc.reason, status := nc.status, duration_seconds := d0,
                 created_at := now0, updated_at := now0 }] := by
          simp [List.filter]
        rw [hone, List.map_append, List.length_append]
        have hmax : maxActionCaseNumber db g0 (action_code nc.action)
            = ((db.mod_cases.filter
                (fun r => r.guild_id == g0 && r.case_code == action_code nc.action)).length : Int) :=
          sqlMaxD0_of_perm_intRange1 (hperm g0 (action_code nc.action))
        simp only [List.map_cons, List.map_nil]
        rw [hmax]
        have hcast : (((db.mod_cases.filter
            (fun r => r.guild_id == g0 && r.case_code == action_code nc.action)).length : Int) + 1)
            = Int.ofNat ((db.mod_cases.filter
              (fun r => r.guild_id == g0 && r.case_code == action_code nc.action)).length + 1) := by
          rfl
        rw [hcast]
        have := (hperm g0 (action_code nc.action)).append
          (List.Perm.refl [Int.ofNat ((db.mod_cases.filter
            (fun r => r.guild_id == g0 && r.case_code == action_code nc.action)).length + 1)])
        rw [← intRange1_succ] at this
        simpa using this
      · have hnone : List.filter (fun r => r.guild_id == g && r.case_code == c)
            [({ id := db.next_case_id, guild_id := g0,
                case_number := maxCaseNumber db g0 + 1,
                case_code := action_code nc.action,
                action_case_number := maxActionCaseNumber db g0 (action_code nc.action) + 1,
                target_user_id := t0, moderator_user_id := m0, action := nc.action,
                reason := nc.reason, status := nc.status, duration_seconds := d0,
                created_at := now0, updated_at := now0 } : CaseRow)] = [] := by
          rw [List.filter_cons, if_neg hmatch]
          rfl
        rw [hnone, List.append_nil]
        exact hperm g c
    · intro g
      rw [hmc, List.filter_append]
      by_cases hg : (g0 == g) = true
      · rw [beq_iff_eq] at hg
        subst hg
        have hone : List.filter (fun r => r.guild_id == g0)
            [({ id := db.next_case_id, guild_id := g0,
                case_number := maxCaseNumber db g0 + 1,
                case_code := action_code nc.action,
                action_case_number := maxActionCaseNumber db g0 (action_code nc.action) + 1,
                target_user_id := t0, moderator_user_id := m0, action := nc.action,
                reason := nc.reason, status := nc.status, duration_seconds := d0,
                created_at := now0, updated_at := now0 } : CaseRow)]
            = [{ id := db.next_case_id, guild_id := g0,
                 case_number := maxCaseNumber db g0 + 1,
                 case_code := action_code nc.action,
                 action_case_number := maxActionCaseNumber db g0 (action_code nc.action) + 1,
                 target_user_id := t0, moderator_user_id := m0, action := nc.action,
                 reason := nc.reason, status := nc.status, duration_seconds := d0,
                 created_at := now0, updated_at := now0 }] := by
          simp [List.filter]
        rw [hone, List.map_append]
        rw [List.pairwise_append]
        refine ⟨hsort g0, by simp, ?_⟩
        intro x hx y hy
        simp only [List.map_cons, List.map_nil, List.mem_cons, List.not_mem_nil,
          or_false] at hy
        subst hy
        have hle : x ≤ maxCaseNumber db g0 := mem_le_sqlMaxD0 hx
        omega
      · have hnone : List.filter (fun r => r.guild_id == g)
            [({ id := db.next_case_id, guild_id := g0,
                case_number := maxCaseNumber db g0 + 1,
                case_code := action_code nc.action,
                action_case_number := maxActionCaseNumber db g0 (action_code nc.action) + 1,
                target_user_id := t0, moderator_user_id := m0, action := nc.action,
                reason := nc.reason, status := nc.status, duration_seconds := d0,
                created_at := now0, updated_at := now0 } : CaseRow)] = [] := by
          rw [List.filter_cons, if_neg hg]
          rfl
        rw [hnone, List.append_nil]
        exact hsort g

/-- C2: after any serialised sequence of `create_case` calls starting from
the empty database (the per-guild advisory lock serialises concurrent
creations for a guild, and cross-guild operations commute), every guild's
`action_case_number` values per `case_code` are exactly `{1, ..., N}` with
no gaps or duplicates, and the guild-wide `case_number` is strictly
increasing in commit order across all case codes and never reused. -/
theorem create_case_numbering_invariant (ops : List (NewCase × Nat)) :
    CaseNumberingInv (applyCreates emptyDb ops) := by
  suffices h : ∀ db : DbState, CaseNumberingInv db → CaseNumberingInv (applyCreates db ops) by
    refine h emptyDb ⟨?_, ?_⟩
    · intro g c
      simp [emptyDb, intRange1]
    · intro g
      simp [emptyDb]
  induction ops with
  | nil => intro db h; exact h
  | cons p t ih =>
    intro db h
    exact ih ((create_case db p.1 p.2).1) (create_case_inv_step db h p.1 p.2)


theorem u64ToI64_ok_eq {v : Nat} {msg : String} {x : Int}
    (h : u64ToI64 v msg = Except.ok x) : x = (v : Int) := by
  unfold u64ToI64 at h
  by_cases hv : v ≤ i64MaxNat
  · rw [if_pos hv] at h
    exact (Except.ok.inj h).symm
  · rw [if_neg hv] at h
    exact absurd h (by simp)

theorem optU64ToI64_ok_nonneg {v : Option Nat} {msg : String} {x : Option Int}
    (h : optU64ToI64 v msg = Except.ok x) : ∀ i ∈ x, 0 ≤ i := by
  intro i hi
  cases v with
  | none =>
    have hx : (none : Option Int) = x := Except.ok.inj h
    rw [← hx] at hi
    exact absurd hi (by simp)
  | some w =>
    have hmap : Except.map Option.some (u64ToI64 w msg) = Except.ok x := h
    cases hw : u64ToI64 w msg with
    | error e => rw [hw] at hmap; exact absurd hmap (by simp [Except.map])
    | ok y =>
      rw [hw] at hmap
      have hx : some y = x := by simpa [Except.map] using hmap
      rw [← hx] at hi
      have hiy : y = i := by simpa using hi
      subst hiy
      rw [u64ToI64_ok_eq hw]
      exact Int.natCast_nonneg w

theorem to_case_summary_ok (row : CaseRow)
    (h1 : 0 ≤ row.case_number) (h2 : 0 ≤ row.action_case_number)
    (h3 : ∀ i ∈ row.target_user_id, 0 ≤ i) (h4 : 0 ≤ row.moderator_user_id)
    (h5 : ∀ i ∈ row.duration_seconds, 0 ≤ i) (h6 : 0 ≤ row.created_at) :
    ∃ s, to_case_summary row = Except.ok s := by
  cases hsum : to_case_summary row with
  | ok s => exact ⟨s, rfl⟩
  | error e =>
    exfalso
    cases ht : row.target_user_id with
    | none =>
      cases hd : row.duration_seconds with
      | none =>
        simp [to_case_summary, i64ToU64, optI64ToU64, ht, hd, h1, h2, h4, h6,
          Bind.bind, Except.bind] at hsum
      | some d =>
        have hdn : 0 ≤ d := h5 d (by rw [hd]; rfl)
        simp [to_case_summary, i64ToU64, optI64ToU64, ht, hd, h1, h2, h4, h6, hdn,
          Bind.bind, Except.bind, Except.map] at hsum
    | some t =>
      have htn : 0 ≤ t := h3 t (by rw [ht]; rfl)
      cases hd : row.duration_seconds with
      | none =>
        simp [to_case_summary, i64ToU64, optI64ToU64, ht, hd, h1, h2, h4, h6, htn,
          Bind.bind, Except.bind, Except.map] at hsum
      | some d =>
        have hdn : 0 ≤ d := h5 d (by rw [hd]; rfl)
        simp [to_case_summary, i64ToU64, optI64ToU64, ht, hd, h1, h2, h4, h6, htn, hdn,
          Bind.bind, Except.bind, Except.map] at hsum

/-- C3: `create_case` inserts the case row and its inaugural `created`
event (actor = `moderator_user_id`, note = "Case created") as one
transaction: on success the state gains exactly the new case row together
with its `created` event (so every case has at least one such event), and
on any failure the state is unchanged — no partial case/no-event state is
observable (on well-formed states; every state the system itself produces
is well-formed). -/
theorem create_case_atomic (db : DbState) (nc : NewCase) (clock : Nat)
    (hwf : WellFormedCases db) :
    (∀ e, (create_case db nc clock).2 = Except.error e → (create_case db nc clock).1 = db)
    ∧ (∀ s, (create_case db nc clock).2 = Except.ok s →
        ∃ row ev,
          (create_case db nc clock).1.mod_cases = db.mod_cases ++ [row]
          ∧ (create_case db nc clock).1.mod_case_events = db.mod_case_events ++ [ev]
          ∧ (create_case db nc clock).1.warnings = db.warnings
          ∧ ev.case_id = row.id
          ∧ ev.event_type = "created"
          ∧ ev.note = some "Case created"
          ∧ ev.actor_user_id = (nc.moderator_user_id : Int)
          ∧ row.moderator_user_id = (nc.moderator_user_id : Int)
          ∧ row.action = nc.action
          ∧ row.case_code = action_code nc.action) := by
  cases hc : caseInputs nc clock with
  | error e0 =>
    have hpair : create_case db nc clock = (db, Except.error e0) := by
      unfold create_case
      rw [hc]
    constructor
    · intro e _
      rw [hpair]
    · intro s hs
      rw [hpair] at hs
      exact absurd hs (by simp)
  | ok v =>
    obtain ⟨g0, t0, m0, d0, now0⟩ := v
    have hc' := hc
    unfold caseInputs at hc'
    obtain ⟨g, hg, hc'⟩ := except_bind_ok hc'
    obtain ⟨t, ht, hc'⟩ := except_bind_ok hc'
    obtain ⟨m, hm, hc'⟩ := except_bind_ok hc'
    obtain ⟨d, hd, hc'⟩ := except_bind_ok hc'
    obtain ⟨now, hnow, hc'⟩ := except_bind_ok hc'
    have htup := Except.ok.inj hc'
    obtain ⟨hg0, ht0, hm0, hd0, hnow0⟩ :
        g = g0 ∧ t = t0 ∧ m = m0 ∧ d = d0 ∧ now = now0 := by
      constructor
      · exact congrArg Prod.fst htup
      constructor
      · exact congrArg (fun p => p.2.1) htup
      constructor
      · exact congrArg (fun p => p.2.2.1) htup
      constructor
      · exact congrArg (fun p => p.2.2.2.1) htup
      · exact congrArg (fun p => p.2.2.2.2) htup
    subst hg0; subst ht0; subst hm0; subst hd0; subst hnow0
    have hmval : m = (nc.moderator_user_id : Int) := u64ToI64_ok_eq hm
    have hpair : create_case db nc clock
        = ({ db with
            mod_cases := db.mod_cases ++
              [{ id := db.next_case_id, guild_id := g,
                 case_number := maxCaseNumber db g + 1,
                 case_code := action_code nc.action,
                 action_case_number := maxActionCaseNumber db g (action_code nc.action) + 1,
                 target_user_id := t, moderator_user_id := m, action := nc.action,
                 reason := nc.reason, status := nc.status, duration_seconds := d,
                 created_at := now, updated_at := now }],
            mod_case_events := db.mod_case_events ++
              [{ id := db.next_event_id, case_id := db.next_case_id, guild_id := g,
                 event_type := "created", actor_user_id := m, old_reason := none,
                 new_reason := none, note := some "Case created", created_at := now }],
            next_case_id := db.next_case_id + 1,
            next_event_id := db.next_event_id + 1 },
          to_case_summary
            { id := db.next_case_id, guild_id := g,
              case_number := maxCaseNumber db g + 1,
              case_code := action_code nc.action,
              action_case_number := maxActionCaseNumber db g (action_code nc.action) + 1,
              target_user_id := t, moderator_user_id := m, action := nc.action,
              reason := nc.reason, status := nc.status, duration_seconds := d,
              created_at := now, updated_at := now }) := by
      unfold create_case
      rw [hc]
    have hsum : ∃ s, to_case_summary
        { id := db.next_case_id, guild_id := g,
          case_number := maxCaseNumber db g + 1,
          case_code := action_code nc.action,
          action_case_number := maxActionCaseNumber db g (action_code nc.action) + 1,
          target_user_id := t, moderator_user_id := m, action := nc.action,
          reason := nc.reason, status := nc.status, duration_seconds := d,
          created_at := now, updated_at := now } = Except.ok s := by
      apply to_case_summary_ok
      · show 0 ≤ maxCaseNumber db g + 1
        have : 0 ≤ maxCaseNumber db g := by
          apply sqlMaxD0_nonneg
          intro x hx
          obtain ⟨r, hr, rfl⟩ := List.mem_map.mp hx
          exact (hwf r (List.mem_of_mem_filter hr)).1
        omega
      · show 0 ≤ maxActionCaseNumber db g (action_code nc.action) + 1
        have : 0 ≤ maxActionCaseNumber db g (action_code nc.action) := by
          apply sqlMaxD0_nonneg
          intro x hx
          obtain ⟨r, hr, rfl⟩ := List.mem_map.mp hx
          exact (hwf r (List.mem_of_mem_filter hr)).2
        omega
      · exact optU64ToI64_ok_nonneg ht
      · show 0 ≤ m
        rw [hmval]
        exact Int.natCast_nonneg _
      · exact optU64ToI64_ok_nonneg hd
      · show 0 ≤ now
        rw [u64ToI64_ok_eq hnow]
        exact Int.natCast_nonneg _
    constructor
    · intro e he
      exfalso
      obtain ⟨s, hs⟩ := hsum
      rw [hpair] at he
      simp only at he
      rw [hs] at he
      exact absurd he (by simp)
    · intro s _
      refine ⟨_, _, by rw [hpair], by rw [hpair], by rw [hpair], rfl, rfl, rfl, ?_, ?_, rfl, rfl⟩
      · exact hmval
      · exact hmval

/-- Witness for C3: creating a first `warn` case on the empty database
appends exactly one case row and its inaugural `created` event. -/
theorem create_case_atomic_witness :
    ∃ row ev,
      (create_case emptyDb
        { guild_id := 1, target_user_id := some 2, moderator_user_id := 3,
          action := "warn", reason := "x", status := "active",
          duration_seconds := none } 100).1.mod_cases = emptyDb.mod_cases ++ [row]
      ∧ (create_case emptyDb
          { guild_id := 1, target_user_id := some 2, moderator_user_id := 3,
            action := "warn", reason := "x", status := "active",
            duration_seconds := none } 100).1.mod_case_events
        = emptyDb.mod_case_events ++ [ev]
      ∧ (create_case emptyDb
          { guild_id := 1, target_user_id := some 2, moderator_user_id := 3,
            action := "warn", reason := "x", status := "active",
            duration_seconds := none } 100).1.warnings = emptyDb.warnings
      ∧ ev.case_id = row.id
      ∧ ev.event_type = "created"
      ∧ ev.note = some "Case created"
      ∧ ev.actor_user_id = ((3 : Nat) : Int)
      ∧ row.moderator_user_id = ((3 : Nat) : Int)
      ∧ row.action = "warn"
      ∧ row.case_code = action_code "warn" :=
  (create_case_atomic emptyDb
    { guild_id := 1, target_user_id := some 2, moderator_user_id := 3,
      action := "warn", reason := "x", status := "active",
      duration_seconds := none } 100 (by intro r hr; exact absurd hr (by simp [emptyDb]))).2
    { case_number := 1, case_code := "W", action_case_number := 1,
      target_user_id := some 2, moderator_user_id := 3, action := "warn",
      reason := "x", duration_seconds := none, created_at := 100 } rfl

end Autumn
